import Mathlib

/-!
# rddnet: network parameters and the parameter registry

A shallow embedding of `params.go` and `genesis.go` of
`reddcoin-project/rddnet`.

* Go maps are association lists with the two operations the source uses,
  the comma-ok read `v, ok := m[k]` and the assignment `m[k] = v`.
* The four package-level tables become one explicit `Registry` value that
  `Register` threads through.
* `byte` is `Fin 256`, `rddwire.BitcoinNet` (a `uint32`) is `Fin 2^32`,
  `[4]byte` is a record of four bytes, `[]byte` is `List Byte`.
* The four `rddwire` network constants live in another package; they are
  taken as a parameter `WireNets`.
-/

namespace Rddnet

/-! ## Go maps -/

/-- Go `map[K]V`, as an association list read from the front. -/
abbrev GoMap (K V : Type) := List (K × V)

namespace GoMap

variable {K V : Type} [DecidableEq K]

/-- The read `v, ok := m[k]`: `some v` when `ok`, `none` otherwise. -/
def get : GoMap K V → K → Option V
  | [], _ => none
  | (k', v) :: m, k => if k' = k then some v else get m k

/-- The `ok` of `_, ok := m[k]`. -/
def contains (m : GoMap K V) (k : K) : Bool := (m.get k).isSome

/-- The assignment `m[k] = v`: overwrite the entry of `k`, or add one. -/
def set : GoMap K V → K → V → GoMap K V
  | [], k, v => [(k, v)]
  | (k', v') :: m, k, v => if k' = k then (k, v) :: m else (k', v') :: set m k v

/-- A map literal `map[K]V{k1: v1, k2: v2, ...}`: entries are stored in order. -/
def ofLiteral (entries : List (K × V)) : GoMap K V :=
  entries.foldl (fun m e => m.set e.1 e.2) []

end GoMap

/-! ## Basic types -/

/-- Go `byte`. -/
abbrev Byte := Fin 256

/-- The type `rddwire.BitcoinNet`, a `uint32`. -/
abbrev BitcoinNet := Fin 4294967296

/-- Go `[4]byte`. -/
structure Bytes4 where
  b0 : Byte
  b1 : Byte
  b2 : Byte
  b3 : Byte
deriving DecidableEq

namespace Bytes4

/-- The zero value of `[4]byte` (`var key [4]byte`). -/
def zero : Bytes4 := ⟨0, 0, 0, 0⟩

/-- The slice expression `a[:]`. -/
def slice (a : Bytes4) : List Byte := [a.b0, a.b1, a.b2, a.b3]

/-- The builtin `copy(dst[:], src)`: the first `min 4 (len src)` bytes of
`src` overwrite those of `dst`, the rest of `dst` is kept. -/
def copyFrom (dst : Bytes4) (src : List Byte) : Bytes4 :=
  ⟨src.getD 0 dst.b0, src.getD 1 dst.b1, src.getD 2 dst.b2, src.getD 3 dst.b3⟩

end Bytes4

/-- The network constants of package `rddwire` used by `params.go`. -/
structure WireNets where
  MainNet : BitcoinNet
  TestNet : BitcoinNet
  TestNet3 : BitcoinNet
  SimNet : BitcoinNet
deriving DecidableEq

/-- The method `big.Int.Lsh`: shift left by `n` bits. -/
def Lsh (x : Int) (n : Nat) : Int := x * 2 ^ n

/-- The variable `bigOne` of the source. -/
def bigOne : Int := 1

/-- The variable `mainPowLimit` of the source. -/
def mainPowLimit : Int := Lsh bigOne 236 - bigOne

/-- The variable `regressionPowLimit` of the source. -/
def regressionPowLimit : Int := Lsh bigOne 255 - bigOne

/-- The variable `testNet3PowLimit` of the source. -/
def testNet3PowLimit : Int := Lsh bigOne 224 - bigOne

/-- The variable `simNetPowLimit` of the source. -/
def simNetPowLimit : Int := Lsh bigOne 255 - bigOne

/-- The struct `Checkpoint`; `Hash` holds the big-endian hex text handed to
`newShaHashFromStr`. -/
structure Checkpoint where
  Height : Int
  Hash : String
deriving DecidableEq

/-! ## Genesis blocks (`genesis.go`)

The `rddwire` message types are declared in another package; the records
below carry the fields that the literals of `genesis.go` set.  A
`time.Time` is its Unix time in seconds. -/

/-- The type `rddwire.ShaHash`, a `[32]byte`, as the list of its bytes. -/
abbrev ShaHash := List Byte

/-- The zero value `rddwire.ShaHash{}`. -/
def ShaHash.zero : ShaHash := List.replicate 32 0

/-- The struct `rddwire.OutPoint`. -/
structure OutPoint where
  Hash : ShaHash
  Index : Nat
deriving DecidableEq

/-- The struct `rddwire.TxIn`. -/
structure TxIn where
  PreviousOutPoint : OutPoint
  SignatureScript : List Byte
  Sequence : Nat
deriving DecidableEq

/-- The struct `rddwire.TxOut`. -/
structure TxOut where
  Value : Int
  PkScript : List Byte
deriving DecidableEq

/-- The struct `rddwire.MsgTx`. -/
structure MsgTx where
  Version : Int
  TxIn : List TxIn
  TxOut : List TxOut
  LockTime : Nat
  Timestamp : Int
deriving DecidableEq

/-- The struct `rddwire.BlockHeader`. -/
structure BlockHeader where
  Version : Int
  PrevBlock : ShaHash
  MerkleRoot : ShaHash
  Timestamp : Int
  Bits : Nat
  Nonce : Nat
deriving DecidableEq

/-- The struct `rddwire.MsgBlock`. -/
structure MsgBlock where
  Header : BlockHeader
  Transactions : List MsgTx
deriving DecidableEq

/-- Unix seconds of the zero `time.Time`, the value of a `Timestamp` field
that a literal leaves out. -/
def zeroTime : Int := -62135596800

/-- The variable `genesisCoinbaseTxBtc` of the source. -/
def genesisCoinbaseTxBtc : MsgTx where
  Version := 1
  TxIn := [
    { PreviousOutPoint := { Hash := ShaHash.zero, Index := 0xffffffff }
      SignatureScript := [
        0x04, 0xff, 0xff, 0x00, 0x1d, 0x01, 0x04, 0x45,
        0x54, 0x68, 0x65, 0x20, 0x54, 0x69, 0x6d, 0x65,
        0x73, 0x20, 0x30, 0x33, 0x2f, 0x4a, 0x61, 0x6e,
        0x2f, 0x32, 0x30, 0x30, 0x39, 0x20, 0x43, 0x68,
        0x61, 0x6e, 0x63, 0x65, 0x6c, 0x6c, 0x6f, 0x72,
        0x20, 0x6f, 0x6e, 0x20, 0x62, 0x72, 0x69, 0x6e,
        0x6b, 0x20, 0x6f, 0x66, 0x20, 0x73, 0x65, 0x63,
        0x6f, 0x6e, 0x64, 0x20, 0x62, 0x61, 0x69, 0x6c,
        0x6f, 0x75, 0x74, 0x20, 0x66, 0x6f, 0x72, 0x20,
        0x62, 0x61, 0x6e, 0x6b, 0x73]
      Sequence := 0xffffffff }]
  TxOut := [
    { Value := 0x12a05f200
      PkScript := [
        0x41, 0x04, 0x67, 0x8a, 0xfd, 0xb0, 0xfe, 0x55,
        0x48, 0x27, 0x19, 0x67, 0xf1, 0xa6, 0x71, 0x30,
        0xb7, 0x10, 0x5c, 0xd6, 0xa8, 0x28, 0xe0, 0x39,
        0x09, 0xa6, 0x79, 0x62, 0xe0, 0xea, 0x1f, 0x61,
        0xde, 0xb6, 0x49, 0xf6, 0xbc, 0x3f, 0x4c, 0xef,
        0x38, 0xc4, 0xf3, 0x55, 0x04, 0xe5, 0x1e, 0xc1,
        0x12, 0xde, 0x5c, 0x38, 0x4d, 0xf7, 0xba, 0x0b,
        0x8d, 0x57, 0x8a, 0x4c, 0x70, 0x2b, 0x6b, 0xf1,
        0x1d, 0x5f, 0xac] }]
  LockTime := 0
  Timestamp := zeroTime

/-- The variable `genesisCoinbaseTx` of the source. -/
def genesisCoinbaseTx : MsgTx where
  Version := 1
  TxIn := [
    { PreviousOutPoint := { Hash := ShaHash.zero, Index := 0xffffffff }
      SignatureScript := [
        0x04, 0xff, 0xff, 0x00, 0x1d, 0x01, 0x04, 0x28,
        0x4a, 0x61, 0x6e, 0x75, 0x61, 0x72, 0x79, 0x20,
        0x32, 0x31, 0x73, 0x74, 0x20, 0x32, 0x30, 0x31,
        0x34, 0x20, 0x77, 0x61, 0x73, 0x20, 0x73, 0x75,
        0x63, 0x68, 0x20, 0x61, 0x20, 0x6e, 0x69, 0x63,
        0x65, 0x20, 0x64, 0x61, 0x79, 0x2e, 0x2e, 0x2e]
      Sequence := 0xffffffff }]
  TxOut := [
    { Value := 0xe8d4a51000
      PkScript := [
        0x41, 0x04, 0x01, 0x84, 0x71, 0x0f, 0xa6, 0x89,
        0xad, 0x50, 0x23, 0x69, 0x0c, 0x80, 0xf3, 0xa4,
        0x9c, 0x8f, 0x13, 0xf8, 0xd4, 0x5b, 0x8c, 0x85,
        0x7f, 0xbc, 0xbc, 0x8b, 0xc4, 0xa8, 0xe4, 0xd3,
        0xeb, 0x4b, 0x10, 0xf4, 0xd4, 0x60, 0x4f, 0xa0,
        0x8d, 0xce, 0x60, 0x1a, 0xaf, 0x0f, 0x47, 0x02,
        0x16, 0xfe, 0x1b, 0x51, 0x85, 0x0b, 0x4a, 0xcf,
        0x21, 0xb1, 0x79, 0xc4, 0x50, 0x70, 0xac, 0x7b,
        0x03, 0xa9, 0xac] }]
  LockTime := 0
  Timestamp := 0

/-- The variable `genesisHash` of the source. -/
def genesisHash : ShaHash := [
  0xcc, 0xde, 0xc1, 0x74, 0xeb, 0xd4, 0xfa, 0x10,
  0x31, 0x4b, 0x3b, 0x9e, 0xf9, 0xcb, 0x8a, 0xdc,
  0xf9, 0xaa, 0x87, 0xe5, 0x7e, 0xc6, 0xad, 0x0d,
  0x0e, 0x3c, 0x3c, 0x5a, 0xd9, 0xe0, 0x68, 0xb8]

/-- The variable `genesisMerkleRootBtc` of the source. -/
def genesisMerkleRootBtc : ShaHash := [
  0x3b, 0xa3, 0xed, 0xfd, 0x7a, 0x7b, 0x12, 0xb2,
  0x7a, 0xc7, 0x2c, 0x3e, 0x67, 0x76, 0x8f, 0x61,
  0x7f, 0xc8, 0x1b, 0xc3, 0x88, 0x8a, 0x51, 0x32,
  0x3a, 0x9f, 0xb8, 0xaa, 0x4b, 0x1e, 0x5e, 0x4a]

/-- The variable `genesisMerkleRoot` of the source. -/
def genesisMerkleRoot : ShaHash := [
  0xff, 0x79, 0xaf, 0x16, 0xa9, 0xff, 0xeb, 0x1b,
  0x82, 0x6d, 0xe1, 0xea, 0x7f, 0x24, 0x53, 0x9a,
  0x2f, 0xe3, 0x70, 0x2f, 0xe9, 0x87, 0x91, 0x2b,
  0x09, 0x07, 0x2b, 0xc4, 0x1d, 0xbc, 0x02, 0xb5]

/-- The variable `genesisBlock` of the source. -/
def genesisBlock : MsgBlock where
  Header :=
    { Version := 1
      PrevBlock := ShaHash.zero
      MerkleRoot := genesisMerkleRoot
      Timestamp := 1390280400
      Bits := 0x1e0ffff0
      Nonce := 0x0d445ab3 }
  Transactions := [genesisCoinbaseTx]

/-- The variable `regTestGenesisHash` of the source. -/
def regTestGenesisHash : ShaHash := [
  0x06, 0x22, 0x6e, 0x46, 0x11, 0x1a, 0x0b, 0x59,
  0xca, 0xaf, 0x12, 0x60, 0x43, 0xeb, 0x5b, 0xbf,
  0x28, 0xc3, 0x4f, 0x3a, 0x5e, 0x33, 0x2a, 0x1f,
  0xc7, 0xb2, 0xb7, 0x3c, 0xf1, 0x88, 0x91, 0x0f]

/-- The variable `regTestGenesisMerkleRoot` of the source. -/
def regTestGenesisMerkleRoot : ShaHash := genesisMerkleRootBtc

/-- The variable `regTestGenesisBlock` of the source. -/
def regTestGenesisBlock : MsgBlock where
  Header :=
    { Version := 1
      PrevBlock := ShaHash.zero
      MerkleRoot := regTestGenesisMerkleRoot
      Timestamp := 1296688602
      Bits := 0x207fffff
      Nonce := 2 }
  Transactions := [genesisCoinbaseTxBtc]

/-- The variable `testNet3GenesisHash` of the source. -/
def testNet3GenesisHash : ShaHash := [
  0x43, 0x49, 0x7f, 0xd7, 0xf8, 0x26, 0x95, 0x71,
  0x08, 0xf4, 0xa3, 0x0f, 0xd9, 0xce, 0xc3, 0xae,
  0xba, 0x79, 0x97, 0x20, 0x84, 0xe9, 0x0e, 0xad,
  0x01, 0xea, 0x33, 0x09, 0x00, 0x00, 0x00, 0x00]

/-- The variable `testNet3GenesisMerkleRoot` of the source. -/
def testNet3GenesisMerkleRoot : ShaHash := genesisMerkleRootBtc

/-- The variable `testNet3GenesisBlock` of the source. -/
def testNet3GenesisBlock : MsgBlock where
  Header :=
    { Version := 1
      PrevBlock := ShaHash.zero
      MerkleRoot := testNet3GenesisMerkleRoot
      Timestamp := 1296688602
      Bits := 0x1d00ffff
      Nonce := 0x18aea41a }
  Transactions := [genesisCoinbaseTxBtc]

/-- The variable `simNetGenesisHash` of the source. -/
def simNetGenesisHash : ShaHash := [
  0xf6, 0x7a, 0xd7, 0x69, 0x5d, 0x9b, 0x66, 0x2a,
  0x72, 0xff, 0x3d, 0x8e, 0xdb, 0xbb, 0x2d, 0xe0,
  0xbf, 0xa6, 0x7b, 0x13, 0x97, 0x4b, 0xb9, 0x91,
  0x0d, 0x11, 0x6d, 0x5c, 0xbd, 0x86, 0x3e, 0x68]

/-- The variable `simNetGenesisMerkleRoot` of the source. -/
def simNetGenesisMerkleRoot : ShaHash := genesisMerkleRootBtc

/-- The variable `simNetGenesisBlock` of the source. -/
def simNetGenesisBlock : MsgBlock where
  Header :=
    { Version := 1
      PrevBlock := ShaHash.zero
      MerkleRoot := simNetGenesisMerkleRoot
      Timestamp := 1401292357
      Bits := 0x207fffff
      Nonce := 2 }
  Transactions := [genesisCoinbaseTxBtc]

/-- The struct `Params`; the two genesis pointers are held by value.  A field
that a literal of the source leaves out has its zero value. -/
structure Params where
  Name : String
  Net : BitcoinNet
  DefaultPort : String
  GenesisBlock : MsgBlock
  GenesisHash : ShaHash
  PowLimit : Int
  PowLimitBits : Nat
  SubsidyHalvingInterval : Int
  ResetMinDifficulty : Bool
  Checkpoints : List Checkpoint
  BlockV1RejectNumRequired : Nat
  BlockV1RejectNumToCheck : Nat
  CoinbaseBlockHeightNumRequired : Nat
  CoinbaseBlockHeightNumToCheck : Nat
  RelayNonStdTxs : Bool
  PubKeyHashAddrID : Byte
  ScriptHashAddrID : Byte
  PrivateKeyID : Byte
  HDPrivateKeyID : Bytes4
  HDPublicKeyID : Bytes4
  HDCoinType : Nat
deriving DecidableEq

/-! ## The four built-in networks -/

/-- The variable `MainNetParams` of the source. -/
def MainNetParams (w : WireNets) : Params where
  Name := "mainnet"
  Net := w.MainNet
  DefaultPort := "45444"
  GenesisBlock := genesisBlock
  GenesisHash := genesisHash
  PowLimit := mainPowLimit
  PowLimitBits := 0x1e0fffff
  SubsidyHalvingInterval := 0
  ResetMinDifficulty := false
  Checkpoints := [
    ⟨10, "a198c38a77555a9fbff0b147bf7ce0660416d6abdaa86adaa3a9be97092592ed"⟩,
    ⟨1000, "9d849e078deac30d58372db898318186cf5073a7f0b109b4776393b21b7b4e5a"⟩,
    ⟨2000, "4674c50137c1d9bf47d96dee5e8c38c41895d494a0bb71e243d1c8a6c805e1f7"⟩,
    ⟨3000, "0deff246b8dfc102ccdbc3a306649be82c441e1da0fba8ca1075cf6b5d7f3c01"⟩,
    ⟨4000, "ad880a4c23d511f04311e98ee77f5163e54cd92f80433e9f3bd6bc2261d50592"⟩,
    ⟨5000, "3f673ef045f4a7d71fb841ce96ed190b20569182bd3dfe628527ec3a7934d08f"⟩,
    ⟨6000, "1222056e58dce70c0a6638e07415bd6190fa5ccdd6d5e7f6af68abb30ebd4eb8"⟩,
    ⟨6150, "e221b12cf8b0c264697e9bb3c9c9f0f7ada5f2736e054cbd53b94852908cdbd3"⟩,
    ⟨10000, "35d5f9cbd94c15771d5ebebf55ea4bfc649c473c0a868fe4d1832f5b45bd5d0c"⟩,
    ⟨15000, "87a8c4289e661720095f2ab6a077151bc84b9615a53c5e7207ba1c20418bd178"⟩,
    ⟨20000, "6a86a4cbbcea694027591ba416ae3831b4f3f9aa3cc6a0a1b5627f920dd765bb"⟩,
    ⟨44878, "d81a3724a81b78e762821d16bfe23565576905685b2c072ea9a3fa7d36dbad8b"⟩,
    ⟨45189, "d10b5da162b922d3cf09c44ea3d533a203c9ab1c442015d7e72f21062d20aeb4"⟩,
    ⟨45239, "e14dba7c7d1ed1a7566e23b0ca0989e3e26099b7beaa673d324001d1291223f7"⟩,
    ⟨114834, "dc5c776ca006c6d40e48c90aeeb43bf6493de589e28f779b486e64aa3403344a"⟩,
    ⟨184000, "e22e6b027cd49cd9aa2ba6df0e0c264c2eed5656b1fa39052c8235d52f2b04d6"⟩,
    ⟨244999, "0b7bb56edfae2f2f1e71ac39daab16614fccf1a1e02c58d4169521d76d880b42"⟩]
  BlockV1RejectNumRequired := 950
  BlockV1RejectNumToCheck := 1000
  CoinbaseBlockHeightNumRequired := 750
  CoinbaseBlockHeightNumToCheck := 1000
  RelayNonStdTxs := false
  PubKeyHashAddrID := 0x3d
  ScriptHashAddrID := 0x05
  PrivateKeyID := 0xbd
  HDPrivateKeyID := ⟨0x04, 0x88, 0xad, 0xe4⟩
  HDPublicKeyID := ⟨0x04, 0x88, 0xb2, 0x1e⟩
  HDCoinType := 4

/-- The variable `RegressionNetParams` of the source. -/
def RegressionNetParams (w : WireNets) : Params where
  Name := "regtest"
  Net := w.TestNet
  DefaultPort := "18444"
  GenesisBlock := regTestGenesisBlock
  GenesisHash := regTestGenesisHash
  PowLimit := regressionPowLimit
  PowLimitBits := 0x207fffff
  SubsidyHalvingInterval := 0
  ResetMinDifficulty := true
  Checkpoints := []
  BlockV1RejectNumRequired := 75
  BlockV1RejectNumToCheck := 100
  CoinbaseBlockHeightNumRequired := 51
  CoinbaseBlockHeightNumToCheck := 100
  RelayNonStdTxs := true
  PubKeyHashAddrID := 0x6f
  ScriptHashAddrID := 0xc4
  PrivateKeyID := 0xef
  HDPrivateKeyID := ⟨0x04, 0x35, 0x83, 0x94⟩
  HDPublicKeyID := ⟨0x04, 0x35, 0x87, 0xcf⟩
  HDCoinType := 1

/-- The variable `TestNet3Params` of the source. -/
def TestNet3Params (w : WireNets) : Params where
  Name := "testnet3"
  Net := w.TestNet3
  DefaultPort := "18333"
  GenesisBlock := testNet3GenesisBlock
  GenesisHash := testNet3GenesisHash
  PowLimit := testNet3PowLimit
  PowLimitBits := 0x1d00ffff
  SubsidyHalvingInterval := 0
  ResetMinDifficulty := true
  Checkpoints := []
  BlockV1RejectNumRequired := 75
  BlockV1RejectNumToCheck := 100
  CoinbaseBlockHeightNumRequired := 51
  CoinbaseBlockHeightNumToCheck := 100
  RelayNonStdTxs := true
  PubKeyHashAddrID := 0x6f
  ScriptHashAddrID := 0xc4
  PrivateKeyID := 0xef
  HDPrivateKeyID := ⟨0x04, 0x35, 0x83, 0x94⟩
  HDPublicKeyID := ⟨0x04, 0x35, 0x87, 0xcf⟩
  HDCoinType := 1

/-- The variable `SimNetParams` of the source. -/
def SimNetParams (w : WireNets) : Params where
  Name := "simnet"
  Net := w.SimNet
  DefaultPort := "18555"
  GenesisBlock := simNetGenesisBlock
  GenesisHash := simNetGenesisHash
  PowLimit := simNetPowLimit
  PowLimitBits := 0x207fffff
  SubsidyHalvingInterval := 0
  ResetMinDifficulty := true
  Checkpoints := []
  BlockV1RejectNumRequired := 75
  BlockV1RejectNumToCheck := 100
  CoinbaseBlockHeightNumRequired := 51
  CoinbaseBlockHeightNumToCheck := 100
  RelayNonStdTxs := true
  PubKeyHashAddrID := 0x3f
  ScriptHashAddrID := 0x7b
  PrivateKeyID := 0x64
  HDPrivateKeyID := ⟨0x04, 0x20, 0xb9, 0x00⟩
  HDPublicKeyID := ⟨0x04, 0x20, 0xbd, 0x3a⟩
  HDCoinType := 115

/-! ## The registry -/

/-- Go `error` values of the package (`nil` is `none : Option Error`). -/
inductive Error where
  | ErrDuplicateNet
  | ErrUnknownHDKeyID
deriving DecidableEq

/-- The four package-level tables. -/
structure Registry where
  registeredNets : GoMap BitcoinNet Unit
  pubKeyHashAddrIDs : GoMap Byte Unit
  scriptHashAddrIDs : GoMap Byte Unit
  hdPrivToPubKeyIDs : GoMap Bytes4 (List Byte)
deriving DecidableEq

/-- The tables as their `var` initialisers build them. -/
def initialRegistry (w : WireNets) : Registry where
  registeredNets := GoMap.ofLiteral [
    ((MainNetParams w).Net, ()),
    ((TestNet3Params w).Net, ()),
    ((RegressionNetParams w).Net, ()),
    ((SimNetParams w).Net, ())]
  pubKeyHashAddrIDs := GoMap.ofLiteral [
    ((MainNetParams w).PubKeyHashAddrID, ()),
    ((TestNet3Params w).PubKeyHashAddrID, ()),
    ((SimNetParams w).PubKeyHashAddrID, ())]
  scriptHashAddrIDs := GoMap.ofLiteral [
    ((MainNetParams w).ScriptHashAddrID, ()),
    ((TestNet3Params w).ScriptHashAddrID, ()),
    ((SimNetParams w).ScriptHashAddrID, ())]
  hdPrivToPubKeyIDs := GoMap.ofLiteral [
    ((MainNetParams w).HDPrivateKeyID, (MainNetParams w).HDPublicKeyID.slice),
    ((TestNet3Params w).HDPrivateKeyID, (TestNet3Params w).HDPublicKeyID.slice),
    ((SimNetParams w).HDPrivateKeyID, (SimNetParams w).HDPublicKeyID.slice)]

/-- The function `Register`: the tables after the call, and the returned error. -/
def Register (r : Registry) (params : Params) : Registry × Option Error :=
  if r.registeredNets.contains params.Net then
    (r, some Error.ErrDuplicateNet)
  else
    ({ registeredNets := r.registeredNets.set params.Net ()
       pubKeyHashAddrIDs := r.pubKeyHashAddrIDs.set params.PubKeyHashAddrID ()
       scriptHashAddrIDs := r.scriptHashAddrIDs.set params.ScriptHashAddrID ()
       hdPrivToPubKeyIDs :=
         r.hdPrivToPubKeyIDs.set params.HDPrivateKeyID params.HDPublicKeyID.slice },
     none)

/-- The function `IsPubKeyHashAddrID` of the source. -/
def IsPubKeyHashAddrID (r : Registry) (id : Byte) : Bool :=
  r.pubKeyHashAddrIDs.contains id

/-- The function `IsScriptHashAddrID` of the source. -/
def IsScriptHashAddrID (r : Registry) (id : Byte) : Bool :=
  r.scriptHashAddrIDs.contains id

/-- The function `HDPrivateKeyToPublicKeyID`: the returned slice (`none` is the nil
slice of the error returns) and the returned error. -/
def HDPrivateKeyToPublicKeyID (r : Registry) (id : List Byte) :
    Option (List Byte) × Option Error :=
  if id.length ≠ 4 then
    (none, some Error.ErrUnknownHDKeyID)
  else
    let key := Bytes4.zero.copyFrom id
    match r.hdPrivToPubKeyIDs.get key with
    | none => (none, some Error.ErrUnknownHDKeyID)
    | some pubBytes => (some pubBytes, none)

/-- The tables after a sequence of `Register` calls, errors ignored. -/
def registerAll (r : Registry) (calls : List Params) : Registry :=
  calls.foldl (fun s p => (Register s p).1) r

/-- Sample values for the `rddwire` network constants, pairwise distinct. -/
def sampleNets : WireNets := ⟨0xd9b4bef9, 0xdab5bffa, 0x0709110b, 0x12141c16⟩

/-- The params whose `Register` call returned nil, in call order, when
`calls` are registered one after the other starting from the tables `r`. -/
def accepted : Registry → List Params → List Params
  | _, [] => []
  | r, p :: calls =>
    if (Register r p).2 = none then p :: accepted (Register r p).1 calls
    else accepted (Register r p).1 calls

/-- The three error kinds of the specification's error taxonomy. -/
inductive SpecErrorKind where
  | DuplicateNetwork
  | InvalidLength
  | UnknownHDKeyMagic
deriving DecidableEq

/-- The kind of the specification's taxonomy that each error value of the
source stands for: `ErrDuplicateNet` ("duplicate Bitcoin network") and
`ErrUnknownHDKeyID` ("unknown hd private extended key bytes"). -/
def Error.specKind : Error → SpecErrorKind
  | Error.ErrDuplicateNet => SpecErrorKind.DuplicateNetwork
  | Error.ErrUnknownHDKeyID => SpecErrorKind.UnknownHDKeyMagic

/-- A custom network used to instantiate statements: a fresh identifier with
prefix bytes and HD magics that no built-in network uses. -/
def customParams : Params :=
  { MainNetParams sampleNets with
    Name := "custom"
    Net := 0xcafe0001
    PubKeyHashAddrID := 0x11
    ScriptHashAddrID := 0x22
    HDPrivateKeyID := ⟨0x01, 0x02, 0x03, 0x04⟩
    HDPublicKeyID := ⟨0x0a, 0x0b, 0x0c, 0x0d⟩ }

/-- The parameters of `customParams` under the main network's identifier. -/
def clashParams : Params := { customParams with Net := sampleNets.MainNet }

/-- A custom network with a fresh identifier that reuses the main network's
HD private magic and pairs it with another public magic. -/
def hdClashParams : Params :=
  { customParams with
    Name := "hdclash"
    HDPrivateKeyID := ⟨0x04, 0x88, 0xad, 0xe4⟩
    HDPublicKeyID := ⟨0x0a, 0x0b, 0x0c, 0x0d⟩ }

/-- The known networks after `calls`: the four built-in ones and the params
whose `Register` call succeeded. -/
def KnownNetwork (w : WireNets) (calls : List Params) (n : Params) : Prop :=
  n = MainNetParams w ∨ n = RegressionNetParams w ∨ n = TestNet3Params w ∨
    n = SimNetParams w ∨ n ∈ accepted (initialRegistry w) calls

/-! ## The compact encoding of a proof-of-work limit -/

/-- Bytes of `n` counted by repeated division by 256; `fuel` bounds the
number of divisions. -/
def byteLenAux : Nat → Nat → Nat
  | 0, _ => 0
  | fuel + 1, n => if n = 0 then 0 else byteLenAux fuel (n / 256) + 1

/-- The size in bytes of a natural number (`len(n.Bytes())` of a `big.Int`):
0 for 0, else the least `k` with `n < 256 ^ k`. -/
def byteLen (n : Nat) : Nat := byteLenAux n n

/-- Modelled from the spec: the compact ("bits") encoding of an
arbitrary-precision integer, the function `BigToCompact` of the chain
package, which is not among the sources of this repository. The top byte is
the size in bytes of the number; the low 23 bits are its most significant
bytes as mantissa; when the mantissa would set the sign bit 0x00800000 it is
shifted down one byte and the size is incremented; bit 0x00800000 is the
sign of the number. -/
def BigToCompact (n : Int) : Nat :=
  if n = 0 then 0
  else
    let exponent := byteLen n.natAbs
    let mantissa :=
      if exponent ≤ 3 then ((n.natAbs % 2 ^ 32) <<< (8 * (3 - exponent))) % 2 ^ 32
      else (n.natAbs >>> (8 * (exponent - 3))) % 2 ^ 32
    let shifted := mantissa &&& 0x00800000 ≠ 0
    let mantissa := if shifted then mantissa >>> 8 else mantissa
    let exponent := if shifted then exponent + 1 else exponent
    let compact := ((exponent <<< 24) % 2 ^ 32) ||| mantissa
    if n < 0 then compact ||| 0x00800000 else compact

/-! ## The wire encoding of a block -/

/-- The `k` low bytes of `n`, least significant first. -/
def leBytes : Nat → Nat → List Byte
  | 0, _ => []
  | k + 1, n => ⟨n % 256, Nat.mod_lt n (by decide)⟩ :: leBytes k (n / 256)

/-- The conversion `uint32(x)` of a signed integer. -/
def toUint32 (x : Int) : Nat := (x % 4294967296).toNat

/-- The conversion `uint64(x)` of a signed integer. -/
def toUint64 (x : Int) : Nat := (x % 18446744073709551616).toNat

/-- Modelled from the spec: the variable-length integer of the wire format,
written by package `rddwire`, which is not among the sources of this
repository: one byte below 0xfd, else a marker byte 0xfd, 0xfe or 0xff
followed by 2, 4 or 8 little-endian bytes. -/
def writeVarInt (n : Nat) : List Byte :=
  if n < 0xfd then leBytes 1 n
  else if n ≤ 0xffff then 0xfd :: leBytes 2 n
  else if n ≤ 0xffffffff then 0xfe :: leBytes 4 n
  else 0xff :: leBytes 8 n

/-- Modelled from the spec: the wire encoding of a transaction input by
package `rddwire`: previous outpoint hash, little-endian 32-bit outpoint
index, script length, script, little-endian 32-bit sequence. -/
def TxIn.Serialize (ti : TxIn) : List Byte :=
  ti.PreviousOutPoint.Hash ++ leBytes 4 ti.PreviousOutPoint.Index ++
    writeVarInt ti.SignatureScript.length ++ ti.SignatureScript ++ leBytes 4 ti.Sequence

/-- Modelled from the spec: the wire encoding of a transaction output by
package `rddwire`: little-endian 64-bit value, script length, script. -/
def TxOut.Serialize (out : TxOut) : List Byte :=
  leBytes 8 (toUint64 out.Value) ++ writeVarInt out.PkScript.length ++ out.PkScript

/-- Modelled from the spec: the wire encoding of a transaction by package
`rddwire`: little-endian 32-bit version, input count and inputs, output
count and outputs, little-endian 32-bit lock time; the timestamp is written
only for a version above 1. -/
def MsgTx.Serialize (tx : MsgTx) : List Byte :=
  leBytes 4 (toUint32 tx.Version) ++
    writeVarInt tx.TxIn.length ++ tx.TxIn.flatMap TxIn.Serialize ++
    writeVarInt tx.TxOut.length ++ tx.TxOut.flatMap TxOut.Serialize ++
    leBytes 4 tx.LockTime ++
    (if tx.Version > 1 then leBytes 4 (toUint32 tx.Timestamp) else [])

/-- Modelled from the spec: the 80-byte wire encoding of a block header by
package `rddwire`: little-endian version, previous-block hash, merkle root,
little-endian 32-bit timestamp, bits, nonce. -/
def BlockHeader.Serialize (h : BlockHeader) : List Byte :=
  leBytes 4 (toUint32 h.Version) ++ h.PrevBlock ++ h.MerkleRoot ++
    leBytes 4 (toUint32 h.Timestamp) ++ leBytes 4 h.Bits ++ leBytes 4 h.Nonce

/-- Modelled from the spec: the method `MsgBlock.Serialize` of package
`rddwire`, which is not among the sources of this repository: the header,
then the transaction count and the serialized transactions. -/
def MsgBlock.Serialize (b : MsgBlock) : List Byte :=
  b.Header.Serialize ++ writeVarInt b.Transactions.length ++
    b.Transactions.flatMap MsgTx.Serialize

/-- The variable `genesisBlockBytes` of `genesis_test.go`. -/
def genesisBlockBytes : List Byte := [
  0x01, 0x00, 0x00, 0x00, 0x00, 0x00, 0x00, 0x00,
  0x00, 0x00, 0x00, 0x00, 0x00, 0x00, 0x00, 0x00,
  0x00, 0x00, 0x00, 0x00, 0x00, 0x00, 0x00, 0x00,
  0x00, 0x00, 0x00, 0x00, 0x00, 0x00, 0x00, 0x00,
  0x00, 0x00, 0x00, 0x00, 0xff, 0x79, 0xaf, 0x16,
  0xa9, 0xff, 0xeb, 0x1b, 0x82, 0x6d, 0xe1, 0xea,
  0x7f, 0x24, 0x53, 0x9a, 0x2f, 0xe3, 0x70, 0x2f,
  0xe9, 0x87, 0x91, 0x2b, 0x09, 0x07, 0x2b, 0xc4,
  0x1d, 0xbc, 0x02, 0xb5, 0xd0, 0xfe, 0xdd, 0x52,
  0xf0, 0xff, 0x0f, 0x1e, 0xb3, 0x5a, 0x44, 0x0d,
  0x01, 0x01, 0x00, 0x00, 0x00, 0x01, 0x00, 0x00,
  0x00, 0x00, 0x00, 0x00, 0x00, 0x00, 0x00, 0x00,
  0x00, 0x00, 0x00, 0x00, 0x00, 0x00, 0x00, 0x00,
  0x00, 0x00, 0x00, 0x00, 0x00, 0x00, 0x00, 0x00,
  0x00, 0x00, 0x00, 0x00, 0x00, 0x00, 0xff, 0xff,
  0xff, 0xff, 0x30, 0x04, 0xff, 0xff, 0x00, 0x1d,
  0x01, 0x04, 0x28, 0x4a, 0x61, 0x6e, 0x75, 0x61,
  0x72, 0x79, 0x20, 0x32, 0x31, 0x73, 0x74, 0x20,
  0x32, 0x30, 0x31, 0x34, 0x20, 0x77, 0x61, 0x73,
  0x20, 0x73, 0x75, 0x63, 0x68, 0x20, 0x61, 0x20,
  0x6e, 0x69, 0x63, 0x65, 0x20, 0x64, 0x61, 0x79,
  0x2e, 0x2e, 0x2e, 0xff, 0xff, 0xff, 0xff, 0x01,
  0x00, 0x10, 0xa5, 0xd4, 0xe8, 0x00, 0x00, 0x00,
  0x43, 0x41, 0x04, 0x01, 0x84, 0x71, 0x0f, 0xa6,
  0x89, 0xad, 0x50, 0x23, 0x69, 0x0c, 0x80, 0xf3,
  0xa4, 0x9c, 0x8f, 0x13, 0xf8, 0xd4, 0x5b, 0x8c,
  0x85, 0x7f, 0xbc, 0xbc, 0x8b, 0xc4, 0xa8, 0xe4,
  0xd3, 0xeb, 0x4b, 0x10, 0xf4, 0xd4, 0x60, 0x4f,
  0xa0, 0x8d, 0xce, 0x60, 0x1a, 0xaf, 0x0f, 0x47,
  0x02, 0x16, 0xfe, 0x1b, 0x51, 0x85, 0x0b, 0x4a,
  0xcf, 0x21, 0xb1, 0x79, 0xc4, 0x50, 0x70, 0xac,
  0x7b, 0x03, 0xa9, 0xac, 0x00, 0x00, 0x00, 0x00]

/-- The variable `regTestGenesisBlockBytes` of `genesis_test.go`. -/
def regTestGenesisBlockBytes : List Byte := [
  0x01, 0x00, 0x00, 0x00, 0x00, 0x00, 0x00, 0x00,
  0x00, 0x00, 0x00, 0x00, 0x00, 0x00, 0x00, 0x00,
  0x00, 0x00, 0x00, 0x00, 0x00, 0x00, 0x00, 0x00,
  0x00, 0x00, 0x00, 0x00, 0x00, 0x00, 0x00, 0x00,
  0x00, 0x00, 0x00, 0x00, 0x3b, 0xa3, 0xed, 0xfd,
  0x7a, 0x7b, 0x12, 0xb2, 0x7a, 0xc7, 0x2c, 0x3e,
  0x67, 0x76, 0x8f, 0x61, 0x7f, 0xc8, 0x1b, 0xc3,
  0x88, 0x8a, 0x51, 0x32, 0x3a, 0x9f, 0xb8, 0xaa,
  0x4b, 0x1e, 0x5e, 0x4a, 0xda, 0xe5, 0x49, 0x4d,
  0xff, 0xff, 0x7f, 0x20, 0x02, 0x00, 0x00, 0x00,
  0x01, 0x01, 0x00, 0x00, 0x00, 0x01, 0x00, 0x00,
  0x00, 0x00, 0x00, 0x00, 0x00, 0x00, 0x00, 0x00,
  0x00, 0x00, 0x00, 0x00, 0x00, 0x00, 0x00, 0x00,
  0x00, 0x00, 0x00, 0x00, 0x00, 0x00, 0x00, 0x00,
  0x00, 0x00, 0x00, 0x00, 0x00, 0x00, 0xff, 0xff,
  0xff, 0xff, 0x4d, 0x04, 0xff, 0xff, 0x00, 0x1d,
  0x01, 0x04, 0x45, 0x54, 0x68, 0x65, 0x20, 0x54,
  0x69, 0x6d, 0x65, 0x73, 0x20, 0x30, 0x33, 0x2f,
  0x4a, 0x61, 0x6e, 0x2f, 0x32, 0x30, 0x30, 0x39,
  0x20, 0x43, 0x68, 0x61, 0x6e, 0x63, 0x65, 0x6c,
  0x6c, 0x6f, 0x72, 0x20, 0x6f, 0x6e, 0x20, 0x62,
  0x72, 0x69, 0x6e, 0x6b, 0x20, 0x6f, 0x66, 0x20,
  0x73, 0x65, 0x63, 0x6f, 0x6e, 0x64, 0x20, 0x62,
  0x61, 0x69, 0x6c, 0x6f, 0x75, 0x74, 0x20, 0x66,
  0x6f, 0x72, 0x20, 0x62, 0x61, 0x6e, 0x6b, 0x73,
  0xff, 0xff, 0xff, 0xff, 0x01, 0x00, 0xf2, 0x05,
  0x2a, 0x01, 0x00, 0x00, 0x00, 0x43, 0x41, 0x04,
  0x67, 0x8a, 0xfd, 0xb0, 0xfe, 0x55, 0x48, 0x27,
  0x19, 0x67, 0xf1, 0xa6, 0x71, 0x30, 0xb7, 0x10,
  0x5c, 0xd6, 0xa8, 0x28, 0xe0, 0x39, 0x09, 0xa6,
  0x79, 0x62, 0xe0, 0xea, 0x1f, 0x61, 0xde, 0xb6,
  0x49, 0xf6, 0xbc, 0x3f, 0x4c, 0xef, 0x38, 0xc4,
  0xf3, 0x55, 0x04, 0xe5, 0x1e, 0xc1, 0x12, 0xde,
  0x5c, 0x38, 0x4d, 0xf7, 0xba, 0x0b, 0x8d, 0x57,
  0x8a, 0x4c, 0x70, 0x2b, 0x6b, 0xf1, 0x1d, 0x5f,
  0xac, 0x00, 0x00, 0x00, 0x00]

/-- The variable `testNet3GenesisBlockBytes` of `genesis_test.go`. -/
def testNet3GenesisBlockBytes : List Byte := [
  0x01, 0x00, 0x00, 0x00, 0x00, 0x00, 0x00, 0x00,
  0x00, 0x00, 0x00, 0x00, 0x00, 0x00, 0x00, 0x00,
  0x00, 0x00, 0x00, 0x00, 0x00, 0x00, 0x00, 0x00,
  0x00, 0x00, 0x00, 0x00, 0x00, 0x00, 0x00, 0x00,
  0x00, 0x00, 0x00, 0x00, 0x3b, 0xa3, 0xed, 0xfd,
  0x7a, 0x7b, 0x12, 0xb2, 0x7a, 0xc7, 0x2c, 0x3e,
  0x67, 0x76, 0x8f, 0x61, 0x7f, 0xc8, 0x1b, 0xc3,
  0x88, 0x8a, 0x51, 0x32, 0x3a, 0x9f, 0xb8, 0xaa,
  0x4b, 0x1e, 0x5e, 0x4a, 0xda, 0xe5, 0x49, 0x4d,
  0xff, 0xff, 0x00, 0x1d, 0x1a, 0xa4, 0xae, 0x18,
  0x01, 0x01, 0x00, 0x00, 0x00, 0x01, 0x00, 0x00,
  0x00, 0x00, 0x00, 0x00, 0x00, 0x00, 0x00, 0x00,
  0x00, 0x00, 0x00, 0x00, 0x00, 0x00, 0x00, 0x00,
  0x00, 0x00, 0x00, 0x00, 0x00, 0x00, 0x00, 0x00,
  0x00, 0x00, 0x00, 0x00, 0x00, 0x00, 0xff, 0xff,
  0xff, 0xff, 0x4d, 0x04, 0xff, 0xff, 0x00, 0x1d,
  0x01, 0x04, 0x45, 0x54, 0x68, 0x65, 0x20, 0x54,
  0x69, 0x6d, 0x65, 0x73, 0x20, 0x30, 0x33, 0x2f,
  0x4a, 0x61, 0x6e, 0x2f, 0x32, 0x30, 0x30, 0x39,
  0x20, 0x43, 0x68, 0x61, 0x6e, 0x63, 0x65, 0x6c,
  0x6c, 0x6f, 0x72, 0x20, 0x6f, 0x6e, 0x20, 0x62,
  0x72, 0x69, 0x6e, 0x6b, 0x20, 0x6f, 0x66, 0x20,
  0x73, 0x65, 0x63, 0x6f, 0x6e, 0x64, 0x20, 0x62,
  0x61, 0x69, 0x6c, 0x6f, 0x75, 0x74, 0x20, 0x66,
  0x6f, 0x72, 0x20, 0x62, 0x61, 0x6e, 0x6b, 0x73,
  0xff, 0xff, 0xff, 0xff, 0x01, 0x00, 0xf2, 0x05,
  0x2a, 0x01, 0x00, 0x00, 0x00, 0x43, 0x41, 0x04,
  0x67, 0x8a, 0xfd, 0xb0, 0xfe, 0x55, 0x48, 0x27,
  0x19, 0x67, 0xf1, 0xa6, 0x71, 0x30, 0xb7, 0x10,
  0x5c, 0xd6, 0xa8, 0x28, 0xe0, 0x39, 0x09, 0xa6,
  0x79, 0x62, 0xe0, 0xea, 0x1f, 0x61, 0xde, 0xb6,
  0x49, 0xf6, 0xbc, 0x3f, 0x4c, 0xef, 0x38, 0xc4,
  0xf3, 0x55, 0x04, 0xe5, 0x1e, 0xc1, 0x12, 0xde,
  0x5c, 0x38, 0x4d, 0xf7, 0xba, 0x0b, 0x8d, 0x57,
  0x8a, 0x4c, 0x70, 0x2b, 0x6b, 0xf1, 0x1d, 0x5f,
  0xac, 0x00, 0x00, 0x00, 0x00]

/-- The variable `simNetGenesisBlockBytes` of `genesis_test.go`. -/
def simNetGenesisBlockBytes : List Byte := [
  0x01, 0x00, 0x00, 0x00, 0x00, 0x00, 0x00, 0x00,
  0x00, 0x00, 0x00, 0x00, 0x00, 0x00, 0x00, 0x00,
  0x00, 0x00, 0x00, 0x00, 0x00, 0x00, 0x00, 0x00,
  0x00, 0x00, 0x00, 0x00, 0x00, 0x00, 0x00, 0x00,
  0x00, 0x00, 0x00, 0x00, 0x3b, 0xa3, 0xed, 0xfd,
  0x7a, 0x7b, 0x12, 0xb2, 0x7a, 0xc7, 0x2c, 0x3e,
  0x67, 0x76, 0x8f, 0x61, 0x7f, 0xc8, 0x1b, 0xc3,
  0x88, 0x8a, 0x51, 0x32, 0x3a, 0x9f, 0xb8, 0xaa,
  0x4b, 0x1e, 0x5e, 0x4a, 0x45, 0x06, 0x86, 0x53,
  0xff, 0xff, 0x7f, 0x20, 0x02, 0x00, 0x00, 0x00,
  0x01, 0x01, 0x00, 0x00, 0x00, 0x01, 0x00, 0x00,
  0x00, 0x00, 0x00, 0x00, 0x00, 0x00, 0x00, 0x00,
  0x00, 0x00, 0x00, 0x00, 0x00, 0x00, 0x00, 0x00,
  0x00, 0x00, 0x00, 0x00, 0x00, 0x00, 0x00, 0x00,
  0x00, 0x00, 0x00, 0x00, 0x00, 0x00, 0xff, 0xff,
  0xff, 0xff, 0x4d, 0x04, 0xff, 0xff, 0x00, 0x1d,
  0x01, 0x04, 0x45, 0x54, 0x68, 0x65, 0x20, 0x54,
  0x69, 0x6d, 0x65, 0x73, 0x20, 0x30, 0x33, 0x2f,
  0x4a, 0x61, 0x6e, 0x2f, 0x32, 0x30, 0x30, 0x39,
  0x20, 0x43, 0x68, 0x61, 0x6e, 0x63, 0x65, 0x6c,
  0x6c, 0x6f, 0x72, 0x20, 0x6f, 0x6e, 0x20, 0x62,
  0x72, 0x69, 0x6e, 0x6b, 0x20, 0x6f, 0x66, 0x20,
  0x73, 0x65, 0x63, 0x6f, 0x6e, 0x64, 0x20, 0x62,
  0x61, 0x69, 0x6c, 0x6f, 0x75, 0x74, 0x20, 0x66,
  0x6f, 0x72, 0x20, 0x62, 0x61, 0x6e, 0x6b, 0x73,
  0xff, 0xff, 0xff, 0xff, 0x01, 0x00, 0xf2, 0x05,
  0x2a, 0x01, 0x00, 0x00, 0x00, 0x43, 0x41, 0x04,
  0x67, 0x8a, 0xfd, 0xb0, 0xfe, 0x55, 0x48, 0x27,
  0x19, 0x67, 0xf1, 0xa6, 0x71, 0x30, 0xb7, 0x10,
  0x5c, 0xd6, 0xa8, 0x28, 0xe0, 0x39, 0x09, 0xa6,
  0x79, 0x62, 0xe0, 0xea, 0x1f, 0x61, 0xde, 0xb6,
  0x49, 0xf6, 0xbc, 0x3f, 0x4c, 0xef, 0x38, 0xc4,
  0xf3, 0x55, 0x04, 0xe5, 0x1e, 0xc1, 0x12, 0xde,
  0x5c, 0x38, 0x4d, 0xf7, 0xba, 0x0b, 0x8d, 0x57,
  0x8a, 0x4c, 0x70, 0x2b, 0x6b, 0xf1, 0x1d, 0x5f,
  0xac, 0x00, 0x00, 0x00, 0x00]

/-! ## SHA-256 and the block hash -/

/-- The `k` low bytes of `n`, most significant first. -/
def beBytes (k n : Nat) : List Byte := (leBytes k n).reverse

/-- The number whose big-endian bytes are `bs`. -/
def beWord (bs : List Byte) : Nat := bs.foldl (fun acc b => acc * 256 + b.val) 0

/-- Addition modulo 2^32. -/
def add32 (a b : Nat) : Nat := (a + b) % 4294967296

/-- Rotation of a 32-bit word to the right by `n` bits. -/
def rotr (x n : Nat) : Nat := ((x >>> n) ||| (x <<< (32 - n))) % 4294967296

/-- The 64 round constants of SHA-256. -/
def sha256K : List Nat := [
  0x428a2f98, 0x71374491, 0xb5c0fbcf, 0xe9b5dba5, 0x3956c25b, 0x59f111f1, 0x923f82a4, 0xab1c5ed5,
  0xd807aa98, 0x12835b01, 0x243185be, 0x550c7dc3, 0x72be5d74, 0x80deb1fe, 0x9bdc06a7, 0xc19bf174,
  0xe49b69c1, 0xefbe4786, 0x0fc19dc6, 0x240ca1cc, 0x2de92c6f, 0x4a7484aa, 0x5cb0a9dc, 0x76f988da,
  0x983e5152, 0xa831c66d, 0xb00327c8, 0xbf597fc7, 0xc6e00bf3, 0xd5a79147, 0x06ca6351, 0x14292967,
  0x27b70a85, 0x2e1b2138, 0x4d2c6dfc, 0x53380d13, 0x650a7354, 0x766a0abb, 0x81c2c92e, 0x92722c85,
  0xa2bfe8a1, 0xa81a664b, 0xc24b8b70, 0xc76c51a3, 0xd192e819, 0xd6990624, 0xf40e3585, 0x106aa070,
  0x19a4c116, 0x1e376c08, 0x2748774c, 0x34b0bcb5, 0x391c0cb3, 0x4ed8aa4a, 0x5b9cca4f, 0x682e6ff3,
  0x748f82ee, 0x78a5636f, 0x84c87814, 0x8cc70208, 0x90befffa, 0xa4506ceb, 0xbef9a3f7, 0xc67178f2]

/-- The initial hash value of SHA-256. -/
def sha256Init : List Nat := [
  0x6a09e667, 0xbb67ae85, 0x3c6ef372, 0xa54ff53a, 0x510e527f, 0x9b05688c, 0x1f83d9ab, 0x5be0cd19]

/-- The function sigma0 of the message schedule. -/
def smallSigma0 (x : Nat) : Nat := rotr x 7 ^^^ rotr x 18 ^^^ (x >>> 3)

/-- The function sigma1 of the message schedule. -/
def smallSigma1 (x : Nat) : Nat := rotr x 17 ^^^ rotr x 19 ^^^ (x >>> 10)

/-- The function Sigma0 of the compression rounds. -/
def bigSigma0 (x : Nat) : Nat := rotr x 2 ^^^ rotr x 13 ^^^ rotr x 22

/-- The function Sigma1 of the compression rounds. -/
def bigSigma1 (x : Nat) : Nat := rotr x 6 ^^^ rotr x 11 ^^^ rotr x 25

/-- The choice function of SHA-256 on 32-bit words. -/
def ch (x y z : Nat) : Nat := (x &&& y) ^^^ ((x ^^^ 0xffffffff) &&& z)

/-- The majority function of SHA-256. -/
def maj (x y z : Nat) : Nat := (x &&& y) ^^^ (x &&& z) ^^^ (y &&& z)

/-- The first `k` big-endian 32-bit words of a byte sequence. -/
def blockWords : Nat → List Byte → List Nat
  | 0, _ => []
  | k + 1, bs => beWord (bs.take 4) :: blockWords k (bs.drop 4)

/-- The message schedule, extended by `k` words; `w` holds the words so far,
the most recent first. -/
def schedule : Nat → List Nat → List Nat
  | 0, w => w
  | k + 1, w =>
    schedule k
      (add32 (add32 (add32 (smallSigma1 (w.getD 1 0)) (w.getD 6 0)) (smallSigma0 (w.getD 14 0)))
        (w.getD 15 0) :: w)

/-- One compression round on the working variables `a` to `h`, with the
round constant and the schedule word in `kw`. -/
def sha256Round (s : List Nat) (kw : Nat × Nat) : List Nat :=
  match s with
  | [a, b, c, d, e, f, g, h] =>
    let t1 := add32 (add32 (add32 (add32 h (bigSigma1 e)) (ch e f g)) kw.1) kw.2
    let t2 := add32 (bigSigma0 a) (maj a b c)
    [add32 t1 t2, a, b, c, add32 d t1, e, f, g]
  | _ => s

/-- The compression of one 64-byte block into the hash value `h`. -/
def compress (h : List Nat) (block : List Byte) : List Nat :=
  let w := (schedule 48 (blockWords 16 block).reverse).reverse
  List.zipWith add32 h ((sha256K.zip w).foldl sha256Round h)

/-- The padding of SHA-256: a byte 0x80, zero bytes up to 56 modulo 64, and
the bit length of the message on 8 big-endian bytes. -/
def pad (msg : List Byte) : List Byte :=
  msg ++ [0x80] ++ List.replicate ((119 - msg.length % 64) % 64) 0 ++ beBytes 8 (msg.length * 8)

/-- The first `k` blocks of 64 bytes of a byte sequence. -/
def blocks : Nat → List Byte → List (List Byte)
  | 0, _ => []
  | k + 1, bs => bs.take 64 :: blocks k (bs.drop 64)

/-- Modelled from the spec: SHA-256 (FIPS 180-4), the hash function that
package `rddwire` applies; it is not among the sources of this repository. -/
def sha256 (msg : List Byte) : List Byte :=
  ((blocks ((pad msg).length / 64) (pad msg)).foldl compress sha256Init).flatMap (beBytes 4)

/-- Modelled from the spec: the function `DoubleSha256` of package `rddwire`,
SHA-256 applied twice. -/
def DoubleSha256 (b : List Byte) : List Byte := sha256 (sha256 b)

/-- Modelled from the spec: the method `MsgBlock.BlockSha` of package
`rddwire`, which is not among the sources of this repository: the double
SHA-256 of the 80-byte serialized header. -/
def MsgBlock.BlockSha (b : MsgBlock) : ShaHash := DoubleSha256 b.Header.Serialize

/-- Modelled from the spec: the decoding of a compact ("bits") value into
the proof-of-work target, the function `CompactToBig` of the chain package,
which is not among the sources of this repository: the low 23 bits are the
mantissa, the top byte is the exponent, the target is
`mantissa * 256 ^ (exponent - 3)` (the mantissa shifted down for an exponent
of at most 3), negated when bit 0x00800000 is set. -/
def CompactToBig (compact : Nat) : Int :=
  let mantissa := compact &&& 0x007fffff
  let isNegative := compact &&& 0x00800000 ≠ 0
  let exponent := compact >>> 24
  let bn : Int :=
    if exponent ≤ 3 then ((mantissa >>> (8 * (3 - exponent)) : Nat) : Int)
    else Lsh (mantissa : Int) (8 * (exponent - 3))
  if isNegative then -bn else bn

/-- A custom network with a fresh identifier whose pay-to-pubkey-hash byte
is 0x05, the main network's pay-to-script-hash byte. -/
def overlapParams : Params :=
  { customParams with
    Name := "overlap"
    PubKeyHashAddrID := 0x05 }

/-! ## Lemmas on maps -/

namespace GoMap

variable {K V : Type} [DecidableEq K]

theorem get_set_self (m : GoMap K V) (k : K) (v : V) : (m.set k v).get k = some v := by
  induction m with
  | nil => simp [set, get]
  | cons e m ih =>
    obtain ⟨k', v'⟩ := e
    by_cases h : k' = k
    · simp [set, get, h]
    · simp [set, get, h, ih]

theorem get_set_ne (m : GoMap K V) {k k' : K} (v : V) (h : k ≠ k') :
    (m.set k v).get k' = m.get k' := by
  induction m with
  | nil => simp [set, get, h]
  | cons e m ih =>
    obtain ⟨k0, v0⟩ := e
    by_cases h0 : k0 = k
    · subst h0
      simp [set, get, h]
    · by_cases h1 : k0 = k'
      · subst h1
        simp [set, get, h0]
      · simp [set, get, h0, h1, ih]

theorem contains_set (m : GoMap K V) (k k' : K) (v : V) :
    (m.set k v).contains k' = (decide (k = k') || m.contains k') := by
  by_cases h : k = k'
  · subst h
    simp [contains, get_set_self]
  · simp [contains, get_set_ne m v h, h]

end GoMap

/-! ## Register: one call -/

theorem Register_dup {r : Registry} {p : Params} (h : r.registeredNets.contains p.Net = true) :
    Register r p = (r, some Error.ErrDuplicateNet) := by
  simp [Register, h]

theorem Register_new {r : Registry} {p : Params} (h : r.registeredNets.contains p.Net = false) :
    Register r p =
      ({ registeredNets := r.registeredNets.set p.Net ()
         pubKeyHashAddrIDs := r.pubKeyHashAddrIDs.set p.PubKeyHashAddrID ()
         scriptHashAddrIDs := r.scriptHashAddrIDs.set p.ScriptHashAddrID ()
         hdPrivToPubKeyIDs := r.hdPrivToPubKeyIDs.set p.HDPrivateKeyID p.HDPublicKeyID.slice },
       none) := by
  simp [Register, h]

theorem copyFrom_slice (a : Bytes4) : Bytes4.zero.copyFrom a.slice = a := by
  cases a
  simp [Bytes4.copyFrom, Bytes4.slice]

/-! ## Register: sequences of calls -/

theorem registerAll_cons (r : Registry) (p : Params) (calls : List Params) :
    registerAll r (p :: calls) = registerAll (Register r p).1 calls := rfl

theorem accepted_of_dup {r : Registry} {p : Params} (calls : List Params)
    (h : r.registeredNets.contains p.Net = true) :
    accepted r (p :: calls) = accepted r calls := by
  simp [accepted, Register_dup h]

theorem accepted_of_new {r : Registry} {p : Params} (calls : List Params)
    (h : r.registeredNets.contains p.Net = false) :
    accepted r (p :: calls) = p :: accepted (Register r p).1 calls := by
  simp [accepted, Register_new h]

/-- The meaning of `accepted`: `q` is in it exactly when some call of the
sequence is `Register q` and returned nil in the tables it was made in. -/
theorem mem_accepted_iff (r : Registry) (calls : List Params) (q : Params) :
    q ∈ accepted r calls ↔
      ∃ before after, calls = before ++ q :: after ∧
        (Register (registerAll r before) q).2 = none := by
  induction calls generalizing r with
  | nil => simp [accepted]
  | cons p calls ih =>
    constructor
    · intro hq
      cases h : r.registeredNets.contains p.Net
      · rw [accepted_of_new calls h, List.mem_cons] at hq
        rcases hq with rfl | hq
        · exact ⟨[], calls, rfl, by simp [registerAll, Register_new h]⟩
        · obtain ⟨before, after, hc, hr⟩ := (ih _).1 hq
          exact ⟨p :: before, after, by simp [hc], by rw [registerAll_cons]; exact hr⟩
      · rw [accepted_of_dup calls h] at hq
        obtain ⟨before, after, hc, hr⟩ := (ih _).1 hq
        refine ⟨p :: before, after, by simp [hc], ?_⟩
        rw [registerAll_cons, Register_dup h]
        exact hr
    · rintro ⟨before, after, hc, hr⟩
      cases before with
      | nil =>
        simp only [List.nil_append, List.cons.injEq] at hc
        obtain ⟨rfl, rfl⟩ := hc
        have hr0 : (Register r p).2 = none := hr
        simp [accepted, hr0]
      | cons p0 before =>
        simp only [List.cons_append, List.cons.injEq] at hc
        obtain ⟨rfl, rfl⟩ := hc
        rw [registerAll_cons] at hr
        have hin : q ∈ accepted (Register r p).1 (before ++ q :: after) :=
          (ih _).2 ⟨before, after, rfl, hr⟩
        unfold accepted
        split
        · exact List.mem_cons_of_mem _ hin
        · exact hin

theorem registeredNets_registerAll (r : Registry) (calls : List Params) (n : BitcoinNet) :
    (registerAll r calls).registeredNets.contains n =
      (r.registeredNets.contains n || (accepted r calls).any (fun q => decide (q.Net = n))) := by
  induction calls generalizing r with
  | nil => simp [registerAll, accepted]
  | cons p calls ih =>
    rw [registerAll_cons]
    cases h : r.registeredNets.contains p.Net
    · rw [accepted_of_new calls h, ih, Register_new h]
      simp only [List.any_cons, GoMap.contains_set]
      rw [← Bool.or_assoc, Bool.or_comm (decide (p.Net = n))]
    · rw [accepted_of_dup calls h, Register_dup h, ih]

theorem pubKeyHash_registerAll (r : Registry) (calls : List Params) (b : Byte) :
    IsPubKeyHashAddrID (registerAll r calls) b =
      (IsPubKeyHashAddrID r b ||
        (accepted r calls).any (fun q => decide (q.PubKeyHashAddrID = b))) := by
  induction calls generalizing r with
  | nil => simp [registerAll, accepted]
  | cons p calls ih =>
    rw [registerAll_cons]
    cases h : r.registeredNets.contains p.Net
    · rw [accepted_of_new calls h, ih, Register_new h]
      simp only [List.any_cons, IsPubKeyHashAddrID, GoMap.contains_set]
      rw [← Bool.or_assoc, Bool.or_comm (decide (p.PubKeyHashAddrID = b))]
    · rw [accepted_of_dup calls h, Register_dup h, ih]

theorem scriptHash_registerAll (r : Registry) (calls : List Params) (b : Byte) :
    IsScriptHashAddrID (registerAll r calls) b =
      (IsScriptHashAddrID r b ||
        (accepted r calls).any (fun q => decide (q.ScriptHashAddrID = b))) := by
  induction calls generalizing r with
  | nil => simp [registerAll, accepted]
  | cons p calls ih =>
    rw [registerAll_cons]
    cases h : r.registeredNets.contains p.Net
    · rw [accepted_of_new calls h, ih, Register_new h]
      simp only [List.any_cons, IsScriptHashAddrID, GoMap.contains_set]
      rw [← Bool.or_assoc, Bool.or_comm (decide (p.ScriptHashAddrID = b))]
    · rw [accepted_of_dup calls h, Register_dup h, ih]

/-! ## The initial tables -/

theorem initial_registeredNets (w : WireNets) (n : BitcoinNet) :
    (initialRegistry w).registeredNets.contains n =
      (decide (w.SimNet = n) || (decide (w.TestNet = n) ||
        (decide (w.TestNet3 = n) || decide (w.MainNet = n)))) := by
  simp only [initialRegistry, GoMap.ofLiteral, List.foldl, GoMap.contains_set, MainNetParams,
    TestNet3Params, RegressionNetParams, SimNetParams]
  simp [GoMap.contains, GoMap.get]

theorem initial_pubKeyHash (w : WireNets) (b : Byte) :
    IsPubKeyHashAddrID (initialRegistry w) b =
      (decide ((0x3f : Byte) = b) || (decide ((0x6f : Byte) = b) || decide ((0x3d : Byte) = b))) := by
  simp only [IsPubKeyHashAddrID, initialRegistry, GoMap.ofLiteral, List.foldl,
    GoMap.contains_set, MainNetParams, TestNet3Params, SimNetParams]
  simp [GoMap.contains, GoMap.get]

theorem initial_scriptHash (w : WireNets) (b : Byte) :
    IsScriptHashAddrID (initialRegistry w) b =
      (decide ((0x7b : Byte) = b) || (decide ((0xc4 : Byte) = b) || decide ((0x05 : Byte) = b))) := by
  simp only [IsScriptHashAddrID, initialRegistry, GoMap.ofLiteral, List.foldl,
    GoMap.contains_set, MainNetParams, TestNet3Params, SimNetParams]
  simp [GoMap.contains, GoMap.get]

/-- C1. For every registry state and every params, `Register` returns
`ErrDuplicateNet` exactly when `params.Net` is in the registered-networks
table and returns nil otherwise; the three other tables play no part. -/
theorem C1_register_error_iff (r : Registry) (p : Params) :
    ((Register r p).2 = some Error.ErrDuplicateNet ↔ r.registeredNets.contains p.Net = true) ∧
    ((Register r p).2 = none ↔ r.registeredNets.contains p.Net = false) ∧
    (Register r p).2 =
      (if r.registeredNets.contains p.Net then some Error.ErrDuplicateNet else none) := by
  cases h : r.registeredNets.contains p.Net
  · simp [Register_new h]
  · simp [Register_dup h]

/-- C2. A `Register` call on an already registered `Net` leaves all four
tables exactly as they were, so the three lookups answer every input as
before, whatever prefix bytes and HD magics the params carry. -/
theorem C2_failed_register_changes_nothing (r : Registry) (p : Params)
    (h : r.registeredNets.contains p.Net = true) :
    (Register r p).2 = some Error.ErrDuplicateNet ∧
    (Register r p).1.registeredNets = r.registeredNets ∧
    (Register r p).1.pubKeyHashAddrIDs = r.pubKeyHashAddrIDs ∧
    (Register r p).1.scriptHashAddrIDs = r.scriptHashAddrIDs ∧
    (Register r p).1.hdPrivToPubKeyIDs = r.hdPrivToPubKeyIDs ∧
    (∀ b, IsPubKeyHashAddrID (Register r p).1 b = IsPubKeyHashAddrID r b) ∧
    (∀ b, IsScriptHashAddrID (Register r p).1 b = IsScriptHashAddrID r b) ∧
    (∀ id, HDPrivateKeyToPublicKeyID (Register r p).1 id = HDPrivateKeyToPublicKeyID r id) := by
  rw [Register_dup h]
  simp

/-- Witness for C2: re-registering the main network's identifier with
prefix bytes and HD magics the initial tables do not hold. -/
theorem C2_failed_register_changes_nothing_witness :
    (initialRegistry sampleNets).registeredNets.contains clashParams.Net = true ∧
    IsPubKeyHashAddrID (initialRegistry sampleNets) clashParams.PubKeyHashAddrID = false ∧
    IsScriptHashAddrID (initialRegistry sampleNets) clashParams.ScriptHashAddrID = false ∧
    (initialRegistry sampleNets).hdPrivToPubKeyIDs.contains clashParams.HDPrivateKeyID = false ∧
    (Register (initialRegistry sampleNets) clashParams).2 = some Error.ErrDuplicateNet ∧
    (Register (initialRegistry sampleNets) clashParams).1.registeredNets
      = (initialRegistry sampleNets).registeredNets ∧
    (Register (initialRegistry sampleNets) clashParams).1.pubKeyHashAddrIDs
      = (initialRegistry sampleNets).pubKeyHashAddrIDs ∧
    (Register (initialRegistry sampleNets) clashParams).1.scriptHashAddrIDs
      = (initialRegistry sampleNets).scriptHashAddrIDs ∧
    (Register (initialRegistry sampleNets) clashParams).1.hdPrivToPubKeyIDs
      = (initialRegistry sampleNets).hdPrivToPubKeyIDs ∧
    (∀ b, IsPubKeyHashAddrID (Register (initialRegistry sampleNets) clashParams).1 b
      = IsPubKeyHashAddrID (initialRegistry sampleNets) b) ∧
    (∀ b, IsScriptHashAddrID (Register (initialRegistry sampleNets) clashParams).1 b
      = IsScriptHashAddrID (initialRegistry sampleNets) b) ∧
    (∀ id, HDPrivateKeyToPublicKeyID (Register (initialRegistry sampleNets) clashParams).1 id
      = HDPrivateKeyToPublicKeyID (initialRegistry sampleNets) id) :=
  ⟨by decide, by decide, by decide, by decide,
    C2_failed_register_changes_nothing (initialRegistry sampleNets) clashParams (by decide)⟩

/-- C3. After a `Register` call on a `Net` that was not registered, the call
has returned nil, `params.Net` is registered, both prefix lookups are true on
the params' bytes, and the HD lookup on the 4 bytes of `HDPrivateKeyID`
succeeds with exactly the 4 bytes of `HDPublicKeyID`. -/
theorem C3_register_success_postcondition (r : Registry) (p : Params)
    (h : r.registeredNets.contains p.Net = false) :
    (Register r p).2 = none ∧
    (Register r p).1.registeredNets.contains p.Net = true ∧
    IsPubKeyHashAddrID (Register r p).1 p.PubKeyHashAddrID = true ∧
    IsScriptHashAddrID (Register r p).1 p.ScriptHashAddrID = true ∧
    HDPrivateKeyToPublicKeyID (Register r p).1 p.HDPrivateKeyID.slice
      = (some [p.HDPublicKeyID.b0, p.HDPublicKeyID.b1, p.HDPublicKeyID.b2, p.HDPublicKeyID.b3],
         none) := by
  rw [Register_new h]
  refine ⟨rfl, ?_, ?_, ?_, ?_⟩
  · simp [GoMap.contains, GoMap.get_set_self]
  · simp [IsPubKeyHashAddrID, GoMap.contains, GoMap.get_set_self]
  · simp [IsScriptHashAddrID, GoMap.contains, GoMap.get_set_self]
  · have hlen : p.HDPrivateKeyID.slice.length = 4 := rfl
    simp only [HDPrivateKeyToPublicKeyID, hlen, copyFrom_slice, GoMap.get_set_self]
    simp [Bytes4.slice]

/-- Witness for C3: registering `customParams` in the initial tables. -/
theorem C3_register_success_postcondition_witness :
    (initialRegistry sampleNets).registeredNets.contains customParams.Net = false ∧
    (Register (initialRegistry sampleNets) customParams).2 = none ∧
    (Register (initialRegistry sampleNets) customParams).1.registeredNets.contains
      customParams.Net = true ∧
    IsPubKeyHashAddrID (Register (initialRegistry sampleNets) customParams).1
      customParams.PubKeyHashAddrID = true ∧
    IsScriptHashAddrID (Register (initialRegistry sampleNets) customParams).1
      customParams.ScriptHashAddrID = true ∧
    HDPrivateKeyToPublicKeyID (Register (initialRegistry sampleNets) customParams).1
      customParams.HDPrivateKeyID.slice
      = (some [customParams.HDPublicKeyID.b0, customParams.HDPublicKeyID.b1,
               customParams.HDPublicKeyID.b2, customParams.HDPublicKeyID.b3], none) :=
  ⟨by decide, C3_register_success_postcondition (initialRegistry sampleNets) customParams
    (by decide)⟩

theorem accepted_sample :
    accepted (initialRegistry sampleNets) [clashParams, customParams] = [customParams] := by
  have h1 : (initialRegistry sampleNets).registeredNets.contains clashParams.Net = true := by
    decide
  have h2 : (initialRegistry sampleNets).registeredNets.contains customParams.Net = false := by
    decide
  rw [accepted_of_dup _ h1, accepted_of_new _ h2]
  rfl

/-- C4. In every state reached from the initial tables by a sequence of
`Register` calls, `Register` returns `ErrDuplicateNet` for every params whose
`Net` is that of a built-in network or of a params that an earlier call of
the sequence registered with success; and a second `Register` of the same
params always fails. -/
theorem C4_register_known_net_fails (w : WireNets) (calls : List Params) (p : Params)
    (h : p.Net = (MainNetParams w).Net ∨ p.Net = (RegressionNetParams w).Net ∨
         p.Net = (TestNet3Params w).Net ∨ p.Net = (SimNetParams w).Net ∨
         ∃ q ∈ accepted (initialRegistry w) calls, q.Net = p.Net) :
    (Register (registerAll (initialRegistry w) calls) p).2 = some Error.ErrDuplicateNet ∧
    ∀ q : Params,
      (Register (Register (registerAll (initialRegistry w) calls) q).1 q).2
        = some Error.ErrDuplicateNet := by
  constructor
  · apply congrArg Prod.snd (Register_dup _)
    rw [registeredNets_registerAll, initial_registeredNets]
    rcases h with h | h | h | h | ⟨q, hq, hn⟩
    · simp [h, MainNetParams]
    · simp [h, RegressionNetParams]
    · simp [h, TestNet3Params]
    · simp [h, SimNetParams]
    · have : (accepted (initialRegistry w) calls).any (fun q => decide (q.Net = p.Net)) = true :=
        List.any_eq_true.2 ⟨q, hq, by simp [hn]⟩
      simp [this]
  · intro q
    apply congrArg Prod.snd (Register_dup _)
    cases hq : (registerAll (initialRegistry w) calls).registeredNets.contains q.Net
    · rw [Register_new hq]
      simp [GoMap.contains, GoMap.get_set_self]
    · rw [Register_dup hq]
      exact hq

/-- Witness for C4: after `customParams` was registered (and a clashing call
rejected), its `Net` is refused. -/
theorem C4_register_known_net_fails_witness :
    (customParams.Net = (MainNetParams sampleNets).Net ∨
      customParams.Net = (RegressionNetParams sampleNets).Net ∨
      customParams.Net = (TestNet3Params sampleNets).Net ∨
      customParams.Net = (SimNetParams sampleNets).Net ∨
      ∃ q ∈ accepted (initialRegistry sampleNets) [clashParams, customParams],
        q.Net = customParams.Net) ∧
    (Register (registerAll (initialRegistry sampleNets) [clashParams, customParams])
        customParams).2 = some Error.ErrDuplicateNet ∧
    ∀ q : Params,
      (Register (Register (registerAll (initialRegistry sampleNets)
          [clashParams, customParams]) q).1 q).2 = some Error.ErrDuplicateNet :=
  ⟨Or.inr (Or.inr (Or.inr (Or.inr
    ⟨customParams, accepted_sample ▸ List.mem_singleton_self customParams, rfl⟩))),
   C4_register_known_net_fails sampleNets [clashParams, customParams] customParams
    (Or.inr (Or.inr (Or.inr (Or.inr
    ⟨customParams, accepted_sample ▸ List.mem_singleton_self customParams, rfl⟩))))⟩

/-- C5. In every state reached from the initial tables by a sequence of
`Register` calls, `IsPubKeyHashAddrID b` is true exactly when `b` is the
`PubKeyHashAddrID` of a built-in network or of a params whose call
succeeded. -/
theorem C5_pubKeyHash_lookup_iff (w : WireNets) (calls : List Params) (b : Byte) :
    IsPubKeyHashAddrID (registerAll (initialRegistry w) calls) b = true ↔
      (b = (MainNetParams w).PubKeyHashAddrID ∨ b = (RegressionNetParams w).PubKeyHashAddrID ∨
       b = (TestNet3Params w).PubKeyHashAddrID ∨ b = (SimNetParams w).PubKeyHashAddrID ∨
       ∃ q ∈ accepted (initialRegistry w) calls, q.PubKeyHashAddrID = b) := by
  rw [pubKeyHash_registerAll, initial_pubKeyHash]
  simp only [Bool.or_eq_true, decide_eq_true_eq, List.any_eq_true, MainNetParams,
    RegressionNetParams, TestNet3Params, SimNetParams]
  constructor
  · rintro ((h | h | h) | h)
    · exact Or.inr (Or.inr (Or.inr (Or.inl h.symm)))
    · exact Or.inr (Or.inl h.symm)
    · exact Or.inl h.symm
    · exact Or.inr (Or.inr (Or.inr (Or.inr h)))
  · rintro (h | h | h | h | h)
    · exact Or.inl (Or.inr (Or.inr h.symm))
    · exact Or.inl (Or.inr (Or.inl h.symm))
    · exact Or.inl (Or.inr (Or.inl h.symm))
    · exact Or.inl (Or.inl h.symm)
    · exact Or.inr h

/-- C6. In every state reached from the initial tables by a sequence of
`Register` calls, `IsScriptHashAddrID b` is true exactly when `b` is the
`ScriptHashAddrID` of a built-in network or of a params whose call
succeeded. -/
theorem C6_scriptHash_lookup_iff (w : WireNets) (calls : List Params) (b : Byte) :
    IsScriptHashAddrID (registerAll (initialRegistry w) calls) b = true ↔
      (b = (MainNetParams w).ScriptHashAddrID ∨ b = (RegressionNetParams w).ScriptHashAddrID ∨
       b = (TestNet3Params w).ScriptHashAddrID ∨ b = (SimNetParams w).ScriptHashAddrID ∨
       ∃ q ∈ accepted (initialRegistry w) calls, q.ScriptHashAddrID = b) := by
  rw [scriptHash_registerAll, initial_scriptHash]
  simp only [Bool.or_eq_true, decide_eq_true_eq, List.any_eq_true, MainNetParams,
    RegressionNetParams, TestNet3Params, SimNetParams]
  constructor
  · rintro ((h | h | h) | h)
    · exact Or.inr (Or.inr (Or.inr (Or.inl h.symm)))
    · exact Or.inr (Or.inl h.symm)
    · exact Or.inl h.symm
    · exact Or.inr (Or.inr (Or.inr (Or.inr h)))
  · rintro (h | h | h | h | h)
    · exact Or.inl (Or.inr (Or.inr h.symm))
    · exact Or.inl (Or.inr (Or.inl h.symm))
    · exact Or.inl (Or.inr (Or.inl h.symm))
    · exact Or.inl (Or.inl h.symm)
    · exact Or.inr h

/-- C7. In the initial tables `IsPubKeyHashAddrID` is true on the
`PubKeyHashAddrID` of each built-in network, regression net included, and
on no other byte: exactly on 0x3d, 0x6f, 0x3f. `IsScriptHashAddrID` is true
on the `ScriptHashAddrID` of each built-in network and on no other byte:
exactly on 0x05, 0xc4, 0x7b. -/
theorem C7_initial_address_ids (w : WireNets) (b : Byte) :
    (IsPubKeyHashAddrID (initialRegistry w) b = true ↔ b = 0x3d ∨ b = 0x6f ∨ b = 0x3f) ∧
    (IsPubKeyHashAddrID (initialRegistry w) b = true ↔
      b = (MainNetParams w).PubKeyHashAddrID ∨ b = (RegressionNetParams w).PubKeyHashAddrID ∨
      b = (TestNet3Params w).PubKeyHashAddrID ∨ b = (SimNetParams w).PubKeyHashAddrID) ∧
    IsPubKeyHashAddrID (initialRegistry w) (MainNetParams w).PubKeyHashAddrID = true ∧
    IsPubKeyHashAddrID (initialRegistry w) (RegressionNetParams w).PubKeyHashAddrID = true ∧
    IsPubKeyHashAddrID (initialRegistry w) (TestNet3Params w).PubKeyHashAddrID = true ∧
    IsPubKeyHashAddrID (initialRegistry w) (SimNetParams w).PubKeyHashAddrID = true ∧
    (IsScriptHashAddrID (initialRegistry w) b = true ↔ b = 0x05 ∨ b = 0xc4 ∨ b = 0x7b) ∧
    (IsScriptHashAddrID (initialRegistry w) b = true ↔
      b = (MainNetParams w).ScriptHashAddrID ∨ b = (RegressionNetParams w).ScriptHashAddrID ∨
      b = (TestNet3Params w).ScriptHashAddrID ∨ b = (SimNetParams w).ScriptHashAddrID) ∧
    IsScriptHashAddrID (initialRegistry w) (MainNetParams w).ScriptHashAddrID = true ∧
    IsScriptHashAddrID (initialRegistry w) (RegressionNetParams w).ScriptHashAddrID = true ∧
    IsScriptHashAddrID (initialRegistry w) (TestNet3Params w).ScriptHashAddrID = true ∧
    IsScriptHashAddrID (initialRegistry w) (SimNetParams w).ScriptHashAddrID = true := by
  simp only [initial_pubKeyHash, initial_scriptHash, MainNetParams, RegressionNetParams,
    TestNet3Params, SimNetParams, Bool.or_eq_true, decide_eq_true_eq]
  refine ⟨?_, ?_, by decide, by decide, by decide, by decide,
    ?_, ?_, by decide, by decide, by decide, by decide⟩
  · constructor
    · rintro (h | h | h)
      · exact Or.inr (Or.inr h.symm)
      · exact Or.inr (Or.inl h.symm)
      · exact Or.inl h.symm
    · rintro (h | h | h)
      · exact Or.inr (Or.inr h.symm)
      · exact Or.inr (Or.inl h.symm)
      · exact Or.inl h.symm
  · constructor
    · rintro (h | h | h)
      · exact Or.inr (Or.inr (Or.inr h.symm))
      · exact Or.inr (Or.inl h.symm)
      · exact Or.inl h.symm
    · rintro (h | h | h | h)
      · exact Or.inr (Or.inr h.symm)
      · exact Or.inr (Or.inl h.symm)
      · exact Or.inr (Or.inl h.symm)
      · exact Or.inl h.symm
  · constructor
    · rintro (h | h | h)
      · exact Or.inr (Or.inr h.symm)
      · exact Or.inr (Or.inl h.symm)
      · exact Or.inl h.symm
    · rintro (h | h | h)
      · exact Or.inr (Or.inr h.symm)
      · exact Or.inr (Or.inl h.symm)
      · exact Or.inl h.symm
  · constructor
    · rintro (h | h | h)
      · exact Or.inr (Or.inr (Or.inr h.symm))
      · exact Or.inr (Or.inl h.symm)
      · exact Or.inl h.symm
    · rintro (h | h | h | h)
      · exact Or.inr (Or.inr h.symm)
      · exact Or.inr (Or.inl h.symm)
      · exact Or.inr (Or.inl h.symm)
      · exact Or.inl h.symm

/-- C8. In the initial tables, for each built-in network the HD lookup on
the 4 bytes of its `HDPrivateKeyID` succeeds and returns the 4 bytes of its
`HDPublicKeyID`: 0488ade4 to 0488b21e for main, 04358394 to 043587cf for
regtest and testnet3, 0420b900 to 0420bd3a for simnet. -/
theorem C8_initial_hd_lookup (w : WireNets) :
    HDPrivateKeyToPublicKeyID (initialRegistry w) (MainNetParams w).HDPrivateKeyID.slice
      = (some (MainNetParams w).HDPublicKeyID.slice, none) ∧
    HDPrivateKeyToPublicKeyID (initialRegistry w) (RegressionNetParams w).HDPrivateKeyID.slice
      = (some (RegressionNetParams w).HDPublicKeyID.slice, none) ∧
    HDPrivateKeyToPublicKeyID (initialRegistry w) (TestNet3Params w).HDPrivateKeyID.slice
      = (some (TestNet3Params w).HDPublicKeyID.slice, none) ∧
    HDPrivateKeyToPublicKeyID (initialRegistry w) (SimNetParams w).HDPrivateKeyID.slice
      = (some (SimNetParams w).HDPublicKeyID.slice, none) ∧
    HDPrivateKeyToPublicKeyID (initialRegistry w) [0x04, 0x88, 0xad, 0xe4]
      = (some [0x04, 0x88, 0xb2, 0x1e], none) ∧
    HDPrivateKeyToPublicKeyID (initialRegistry w) [0x04, 0x35, 0x83, 0x94]
      = (some [0x04, 0x35, 0x87, 0xcf], none) ∧
    HDPrivateKeyToPublicKeyID (initialRegistry w) [0x04, 0x20, 0xb9, 0x00]
      = (some [0x04, 0x20, 0xbd, 0x3a], none) ∧
    (MainNetParams w).HDPrivateKeyID.slice = [0x04, 0x88, 0xad, 0xe4] ∧
    (RegressionNetParams w).HDPrivateKeyID.slice = [0x04, 0x35, 0x83, 0x94] ∧
    (TestNet3Params w).HDPrivateKeyID.slice = [0x04, 0x35, 0x83, 0x94] ∧
    (SimNetParams w).HDPrivateKeyID.slice = [0x04, 0x20, 0xb9, 0x00] := by
  refine ⟨?_, ?_, ?_, ?_, ?_, ?_, ?_, rfl, rfl, rfl, rfl⟩ <;> rfl

/-! ## The HD lookup -/

theorem hd_wrong_length (r : Registry) {id : List Byte} (h : id.length ≠ 4) :
    HDPrivateKeyToPublicKeyID r id = (none, some Error.ErrUnknownHDKeyID) := by
  simp [HDPrivateKeyToPublicKeyID, h]

theorem hd_four_bytes (r : Registry) (b0 b1 b2 b3 : Byte) :
    HDPrivateKeyToPublicKeyID r [b0, b1, b2, b3] =
      match r.hdPrivToPubKeyIDs.get ⟨b0, b1, b2, b3⟩ with
      | none => (none, some Error.ErrUnknownHDKeyID)
      | some pubBytes => (some pubBytes, none) := by
  simp [HDPrivateKeyToPublicKeyID, Bytes4.copyFrom]

theorem length_four {id : List Byte} (h : id.length = 4) :
    ∃ b0 b1 b2 b3, id = [b0, b1, b2, b3] := by
  match id, h with
  | [b0, b1, b2, b3], _ => exact ⟨b0, b1, b2, b3, rfl⟩

/-- C9, as the specification states it, fails: on the empty id and on a
5-byte id that starts with the main network's private magic the lookup
returns `ErrUnknownHDKeyID`, the error value of an unregistered 4-byte id,
whose kind is `UnknownHDKeyMagic` and not `InvalidLength`. -/
theorem C9_invalid_length_counterexample :
    HDPrivateKeyToPublicKeyID (initialRegistry sampleNets) []
      = (none, some Error.ErrUnknownHDKeyID) ∧
    HDPrivateKeyToPublicKeyID (initialRegistry sampleNets) [0x04, 0x88, 0xad, 0xe4, 0x00]
      = (none, some Error.ErrUnknownHDKeyID) ∧
    HDPrivateKeyToPublicKeyID (initialRegistry sampleNets) [0x00, 0x00, 0x00, 0x00]
      = (none, some Error.ErrUnknownHDKeyID) ∧
    (HDPrivateKeyToPublicKeyID (initialRegistry sampleNets) []).2.map Error.specKind
      ≠ some SpecErrorKind.InvalidLength ∧
    (HDPrivateKeyToPublicKeyID (initialRegistry sampleNets)
        [0x04, 0x88, 0xad, 0xe4, 0x00]).2.map Error.specKind
      ≠ some SpecErrorKind.InvalidLength := by
  decide

/-- C9, amended. For every registry state and every id whose length is not
4, the HD lookup fails with a nil result and `ErrUnknownHDKeyID`, the error
of kind `UnknownHDKeyMagic`; no error value of the source has the kind
`InvalidLength`. -/
theorem C9_wrong_length_is_unknown_id (r : Registry) (id : List Byte) (h : id.length ≠ 4) :
    HDPrivateKeyToPublicKeyID r id = (none, some Error.ErrUnknownHDKeyID) ∧
    (HDPrivateKeyToPublicKeyID r id).2.map Error.specKind
      = some SpecErrorKind.UnknownHDKeyMagic ∧
    ∀ e : Error, e.specKind ≠ SpecErrorKind.InvalidLength := by
  rw [hd_wrong_length r h]
  refine ⟨rfl, rfl, ?_⟩
  intro e
  cases e <;> simp [Error.specKind]

/-- Witness for the amended C9: a 5-byte id whose first 4 bytes are the
main network's private magic. -/
theorem C9_wrong_length_is_unknown_id_witness :
    ([0x04, 0x88, 0xad, 0xe4, 0x00] : List Byte).length ≠ 4 ∧
    (initialRegistry sampleNets).hdPrivToPubKeyIDs.contains ⟨0x04, 0x88, 0xad, 0xe4⟩ = true ∧
    HDPrivateKeyToPublicKeyID (initialRegistry sampleNets) [0x04, 0x88, 0xad, 0xe4, 0x00]
      = (none, some Error.ErrUnknownHDKeyID) ∧
    (HDPrivateKeyToPublicKeyID (initialRegistry sampleNets)
        [0x04, 0x88, 0xad, 0xe4, 0x00]).2.map Error.specKind
      = some SpecErrorKind.UnknownHDKeyMagic ∧
    ∀ e : Error, e.specKind ≠ SpecErrorKind.InvalidLength :=
  ⟨by decide, by decide,
    C9_wrong_length_is_unknown_id (initialRegistry sampleNets) [0x04, 0x88, 0xad, 0xe4, 0x00]
      (by decide)⟩

/-- C10. For every registry state and every id, the HD lookup succeeds
exactly when id has 4 bytes and the full 4-byte value is a key of the HD
table; on a 4-byte id that is not a key it returns a nil result with
`ErrUnknownHDKeyID`, and on success it returns the value stored under the
full 4-byte key. -/
theorem C10_hd_lookup_contract (r : Registry) (id : List Byte) :
    ((HDPrivateKeyToPublicKeyID r id).2 = none ↔
      ∃ b0 b1 b2 b3, id = [b0, b1, b2, b3] ∧
        r.hdPrivToPubKeyIDs.contains ⟨b0, b1, b2, b3⟩ = true) ∧
    ((HDPrivateKeyToPublicKeyID r id).2 = none ↔
      id.length = 4 ∧ ∃ v, (HDPrivateKeyToPublicKeyID r id).1 = some v) ∧
    (∀ b0 b1 b2 b3, id = [b0, b1, b2, b3] →
      r.hdPrivToPubKeyIDs.contains ⟨b0, b1, b2, b3⟩ = false →
      HDPrivateKeyToPublicKeyID r id = (none, some Error.ErrUnknownHDKeyID)) ∧
    (∀ b0 b1 b2 b3 v, id = [b0, b1, b2, b3] →
      r.hdPrivToPubKeyIDs.get ⟨b0, b1, b2, b3⟩ = some v →
      HDPrivateKeyToPublicKeyID r id = (some v, none)) := by
  refine ⟨?_, ?_, ?_, ?_⟩
  · by_cases hlen : id.length = 4
    · obtain ⟨b0, b1, b2, b3, rfl⟩ := length_four hlen
      rw [hd_four_bytes]
      cases hg : r.hdPrivToPubKeyIDs.get ⟨b0, b1, b2, b3⟩
      · simp only [reduceCtorEq, false_iff, not_exists, not_and]
        intro c0 c1 c2 c3 hid
        simp only [List.cons.injEq, and_true] at hid
        obtain ⟨rfl, rfl, rfl, rfl⟩ := hid
        simp [GoMap.contains, hg]
      · simp only [true_iff]
        exact ⟨b0, b1, b2, b3, rfl, by simp [GoMap.contains, hg]⟩
    · rw [hd_wrong_length r hlen]
      simp only [reduceCtorEq, false_iff, not_exists, not_and]
      intro b0 b1 b2 b3 hid
      exact absurd (by rw [hid]; rfl) hlen
  · by_cases hlen : id.length = 4
    · obtain ⟨b0, b1, b2, b3, rfl⟩ := length_four hlen
      rw [hd_four_bytes]
      cases hg : r.hdPrivToPubKeyIDs.get ⟨b0, b1, b2, b3⟩ <;> simp
    · rw [hd_wrong_length r hlen]
      simp [hlen]
  · rintro b0 b1 b2 b3 rfl hc
    rw [hd_four_bytes]
    cases hg : r.hdPrivToPubKeyIDs.get ⟨b0, b1, b2, b3⟩
    · rfl
    · simp [GoMap.contains, hg] at hc
  · rintro b0 b1 b2 b3 v rfl hg
    rw [hd_four_bytes, hg]

/-- Witness for C10: in the initial tables the main network's private magic
resolves to its public magic, and the same id with its last byte changed is
unknown. -/
theorem C10_hd_lookup_contract_witness :
    HDPrivateKeyToPublicKeyID (initialRegistry sampleNets) [0x04, 0x88, 0xad, 0xe4]
      = (some [0x04, 0x88, 0xb2, 0x1e], none) ∧
    HDPrivateKeyToPublicKeyID (initialRegistry sampleNets) [0x04, 0x88, 0xad, 0xe5]
      = (none, some Error.ErrUnknownHDKeyID) :=
  ⟨(C10_hd_lookup_contract (initialRegistry sampleNets) [0x04, 0x88, 0xad, 0xe4]).2.2.2
      0x04 0x88 0xad 0xe4 [0x04, 0x88, 0xb2, 0x1e] rfl (by decide),
   (C10_hd_lookup_contract (initialRegistry sampleNets) [0x04, 0x88, 0xad, 0xe5]).2.2.1
      0x04 0x88 0xad 0xe5 rfl (by decide)⟩

/-! ## The HD table along a sequence of calls -/

theorem get_of_literal_hd (w : WireNets) (k : Bytes4) :
    (initialRegistry w).hdPrivToPubKeyIDs.get k =
      if (⟨0x04, 0x88, 0xad, 0xe4⟩ : Bytes4) = k then some [0x04, 0x88, 0xb2, 0x1e]
      else if (⟨0x04, 0x35, 0x83, 0x94⟩ : Bytes4) = k then some [0x04, 0x35, 0x87, 0xcf]
      else if (⟨0x04, 0x20, 0xb9, 0x00⟩ : Bytes4) = k then some [0x04, 0x20, 0xbd, 0x3a]
      else none := by
  rfl

theorem hdTable_registerAll (r : Registry) (calls : List Params) (k : Bytes4) :
    (registerAll r calls).hdPrivToPubKeyIDs.get k =
      match (accepted r calls).reverse.find? (fun q => decide (q.HDPrivateKeyID = k)) with
      | some q => some q.HDPublicKeyID.slice
      | none => r.hdPrivToPubKeyIDs.get k := by
  induction calls generalizing r with
  | nil => simp [registerAll, accepted]
  | cons p calls ih =>
    rw [registerAll_cons]
    cases h : r.registeredNets.contains p.Net
    · rw [accepted_of_new calls h, ih, List.reverse_cons, List.find?_append]
      cases hf : (accepted (Register r p).1 calls).reverse.find?
          (fun q => decide (q.HDPrivateKeyID = k)) with
      | some q => simp
      | none =>
        rw [Register_new h]
        by_cases hk : p.HDPrivateKeyID = k
        · subst hk
          simp [GoMap.get_set_self]
        · simp [GoMap.get_set_ne _ _ hk, hk]
    · rw [accepted_of_dup calls h, Register_dup h, ih]

theorem hd_ok_iff (r : Registry) (id : List Byte) :
    (HDPrivateKeyToPublicKeyID r id).2 = none ↔
      ∃ b0 b1 b2 b3, id = [b0, b1, b2, b3] ∧
        r.hdPrivToPubKeyIDs.contains ⟨b0, b1, b2, b3⟩ = true := by
  by_cases hlen : id.length = 4
  · obtain ⟨b0, b1, b2, b3, rfl⟩ := length_four hlen
    rw [hd_four_bytes]
    cases hg : r.hdPrivToPubKeyIDs.get ⟨b0, b1, b2, b3⟩
    · simp only [reduceCtorEq, false_iff, not_exists, not_and]
      intro c0 c1 c2 c3 hid
      simp only [List.cons.injEq, and_true] at hid
      obtain ⟨rfl, rfl, rfl, rfl⟩ := hid
      simp [GoMap.contains, hg]
    · simp only [true_iff]
      exact ⟨b0, b1, b2, b3, rfl, by simp [GoMap.contains, hg]⟩
  · rw [hd_wrong_length r hlen]
    simp only [reduceCtorEq, false_iff, not_exists, not_and]
    intro b0 b1 b2 b3 hid
    exact absurd (by rw [hid]; rfl) hlen

theorem hd_slice (r : Registry) (k : Bytes4) :
    HDPrivateKeyToPublicKeyID r k.slice =
      match r.hdPrivToPubKeyIDs.get k with
      | none => (none, some Error.ErrUnknownHDKeyID)
      | some pubBytes => (some pubBytes, none) := by
  cases k
  exact hd_four_bytes r _ _ _ _

theorem accepted_hdClash :
    accepted (initialRegistry sampleNets) [hdClashParams] = [hdClashParams] := by
  have h : (initialRegistry sampleNets).registeredNets.contains hdClashParams.Net = false := by
    decide
  rw [accepted_of_new _ h]
  rfl

theorem accepted_custom :
    accepted (initialRegistry sampleNets) [customParams] = [customParams] := by
  have h : (initialRegistry sampleNets).registeredNets.contains customParams.Net = false := by
    decide
  rw [accepted_of_new _ h]
  rfl

theorem hd_builtin (w : WireNets) (n : Params)
    (hn : n = MainNetParams w ∨ n = RegressionNetParams w ∨ n = TestNet3Params w ∨
      n = SimNetParams w) :
    (initialRegistry w).hdPrivToPubKeyIDs.get n.HDPrivateKeyID = some n.HDPublicKeyID.slice := by
  rcases hn with rfl | rfl | rfl | rfl <;> rfl

/-- C11, as stated, fails: once `hdClashParams`, a new network that reuses
the main network's private magic 0488ade4 with the public magic 0a0b0c0d,
is registered, the lookup on the main network's `HDPrivateKeyID` returns
0a0b0c0d and not the main network's `HDPublicKeyID` 0488b21e. -/
theorem C11_hd_pair_counterexample :
    KnownNetwork sampleNets [hdClashParams] (MainNetParams sampleNets) ∧
    (Register (initialRegistry sampleNets) hdClashParams).2 = none ∧
    HDPrivateKeyToPublicKeyID (registerAll (initialRegistry sampleNets) [hdClashParams])
        (MainNetParams sampleNets).HDPrivateKeyID.slice
      = (some [0x0a, 0x0b, 0x0c, 0x0d], none) ∧
    (MainNetParams sampleNets).HDPublicKeyID.slice = [0x04, 0x88, 0xb2, 0x1e] ∧
    HDPrivateKeyToPublicKeyID (registerAll (initialRegistry sampleNets) [hdClashParams])
        (MainNetParams sampleNets).HDPrivateKeyID.slice
      ≠ (some (MainNetParams sampleNets).HDPublicKeyID.slice, none) := by
  refine ⟨Or.inl rfl, by decide, by decide, rfl, by decide⟩

/-- C11, amended. In every state reached from the initial tables by a
sequence of `Register` calls, for every known network `n` the lookup on
`n.HDPrivateKeyID` succeeds and returns the `HDPublicKeyID` of a known
network with that same private magic: that of the last accepted params
carrying it, if there is one. It returns `n.HDPublicKeyID` whenever every
accepted params with the private magic of `n` carries the public magic of
`n`. -/
theorem C11_hd_lookup_known_network (w : WireNets) (calls : List Params) (n : Params)
    (hn : KnownNetwork w calls n) :
    (∃ m, KnownNetwork w calls m ∧ m.HDPrivateKeyID = n.HDPrivateKeyID ∧
      HDPrivateKeyToPublicKeyID (registerAll (initialRegistry w) calls) n.HDPrivateKeyID.slice
        = (some m.HDPublicKeyID.slice, none)) ∧
    (∀ q, (accepted (initialRegistry w) calls).reverse.find?
        (fun q => decide (q.HDPrivateKeyID = n.HDPrivateKeyID)) = some q →
      HDPrivateKeyToPublicKeyID (registerAll (initialRegistry w) calls) n.HDPrivateKeyID.slice
        = (some q.HDPublicKeyID.slice, none)) ∧
    ((∀ q ∈ accepted (initialRegistry w) calls,
        q.HDPrivateKeyID = n.HDPrivateKeyID → q.HDPublicKeyID = n.HDPublicKeyID) →
      HDPrivateKeyToPublicKeyID (registerAll (initialRegistry w) calls) n.HDPrivateKeyID.slice
        = (some n.HDPublicKeyID.slice, none)) := by
  rw [hd_slice, hdTable_registerAll]
  cases hf : (accepted (initialRegistry w) calls).reverse.find?
      (fun q => decide (q.HDPrivateKeyID = n.HDPrivateKeyID)) with
  | some q =>
    have hq : q ∈ accepted (initialRegistry w) calls :=
      List.mem_reverse.1 (List.mem_of_find?_eq_some hf)
    have hk : q.HDPrivateKeyID = n.HDPrivateKeyID := by
      simpa using List.find?_some hf
    refine ⟨⟨q, Or.inr (Or.inr (Or.inr (Or.inr hq))), hk, rfl⟩, ?_, ?_⟩
    · intro q' hq'
      cases hq'
      rfl
    · intro hall
      simp only [hall q hq hk]
  | none =>
    have hb : n = MainNetParams w ∨ n = RegressionNetParams w ∨ n = TestNet3Params w ∨
        n = SimNetParams w := by
      rcases hn with h | h | h | h | h
      · exact Or.inl h
      · exact Or.inr (Or.inl h)
      · exact Or.inr (Or.inr (Or.inl h))
      · exact Or.inr (Or.inr (Or.inr h))
      · exact absurd (by simp) (List.find?_eq_none.1 hf n (List.mem_reverse.2 h))
    simp only [hd_builtin w n hb]
    refine ⟨⟨n, hn, rfl, rfl⟩, ?_, ?_⟩
    · intro q hq
      cases hq
    · intro _
      trivial

/-- Witness for the amended C11: after `customParams` is registered, the
lookup on its private magic returns its public magic. -/
theorem C11_hd_lookup_known_network_witness :
    KnownNetwork sampleNets [customParams] customParams ∧
    HDPrivateKeyToPublicKeyID (registerAll (initialRegistry sampleNets) [customParams])
        customParams.HDPrivateKeyID.slice
      = (some customParams.HDPublicKeyID.slice, none) :=
  ⟨Or.inr (Or.inr (Or.inr (Or.inr (accepted_custom ▸ List.mem_singleton_self customParams)))),
   (C11_hd_lookup_known_network sampleNets [customParams] customParams
      (Or.inr (Or.inr (Or.inr (Or.inr
        (accepted_custom ▸ List.mem_singleton_self customParams)))))).2.2
      (fun q hq _ => by
        rw [accepted_custom, List.mem_singleton] at hq
        rw [hq])⟩

/-- C12. The registry only grows: over any `Register` call, accepted or
refused, a registered network identifier stays registered, a byte on which
`IsPubKeyHashAddrID` or `IsScriptHashAddrID` was true stays true, and an id
on which the HD lookup succeeded still succeeds. -/
theorem C12_register_only_grows (r : Registry) (p : Params) :
    (∀ n, r.registeredNets.contains n = true →
      (Register r p).1.registeredNets.contains n = true) ∧
    (∀ b, IsPubKeyHashAddrID r b = true → IsPubKeyHashAddrID (Register r p).1 b = true) ∧
    (∀ b, IsScriptHashAddrID r b = true → IsScriptHashAddrID (Register r p).1 b = true) ∧
    (∀ id, (HDPrivateKeyToPublicKeyID r id).2 = none →
      (HDPrivateKeyToPublicKeyID (Register r p).1 id).2 = none) := by
  cases h : r.registeredNets.contains p.Net
  · rw [Register_new h]
    refine ⟨?_, ?_, ?_, ?_⟩
    · intro n hn
      simp [GoMap.contains_set, hn]
    · intro b hb
      simp only [IsPubKeyHashAddrID] at hb ⊢
      simp [GoMap.contains_set, hb]
    · intro b hb
      simp only [IsScriptHashAddrID] at hb ⊢
      simp [GoMap.contains_set, hb]
    · intro id hid
      obtain ⟨b0, b1, b2, b3, rfl, hc⟩ := (hd_ok_iff r id).1 hid
      exact (hd_ok_iff _ _).2 ⟨b0, b1, b2, b3, rfl, by simp [GoMap.contains_set, hc]⟩
  · rw [Register_dup h]
    exact ⟨fun _ hn => hn, fun _ hb => hb, fun _ hb => hb, fun _ hid => hid⟩

/-- Witness for C12: registering `hdClashParams` in the initial tables keeps
the main network's identifier, prefix bytes and HD private magic known. -/
theorem C12_register_only_grows_witness :
    (Register (initialRegistry sampleNets) hdClashParams).1.registeredNets.contains
      sampleNets.MainNet = true ∧
    IsPubKeyHashAddrID (Register (initialRegistry sampleNets) hdClashParams).1 0x3d = true ∧
    IsScriptHashAddrID (Register (initialRegistry sampleNets) hdClashParams).1 0x05 = true ∧
    (HDPrivateKeyToPublicKeyID (Register (initialRegistry sampleNets) hdClashParams).1
      [0x04, 0x88, 0xad, 0xe4]).2 = none :=
  ⟨(C12_register_only_grows (initialRegistry sampleNets) hdClashParams).1
      sampleNets.MainNet (by decide),
   (C12_register_only_grows (initialRegistry sampleNets) hdClashParams).2.1 0x3d (by decide),
   (C12_register_only_grows (initialRegistry sampleNets) hdClashParams).2.2.1 0x05 (by decide),
   (C12_register_only_grows (initialRegistry sampleNets) hdClashParams).2.2.2
      [0x04, 0x88, 0xad, 0xe4] (by decide)⟩

/-! ## The parameter records -/

theorem main_checkpoint_heights (w : WireNets) :
    (MainNetParams w).Checkpoints.map Checkpoint.Height =
      [10, 1000, 2000, 3000, 4000, 5000, 6000, 6150, 10000, 15000, 20000, 44878, 45189,
       45239, 114834, 184000, 244999] := rfl

/-- C13. For each built-in network the checkpoint heights are strictly
increasing from first to last, hence without duplicates; for the main
network they are the 17 heights 10, 1000, ..., 244999. -/
theorem C13_checkpoints_strictly_increasing (w : WireNets) :
    (MainNetParams w).Checkpoints.map Checkpoint.Height =
      [10, 1000, 2000, 3000, 4000, 5000, 6000, 6150, 10000, 15000, 20000, 44878, 45189,
       45239, 114834, 184000, 244999] ∧
    ((MainNetParams w).Checkpoints.map Checkpoint.Height).length = 17 ∧
    List.Chain' (fun a b => a < b) ((MainNetParams w).Checkpoints.map Checkpoint.Height) ∧
    List.Chain' (fun a b => a < b)
      ((RegressionNetParams w).Checkpoints.map Checkpoint.Height) ∧
    List.Chain' (fun a b => a < b) ((TestNet3Params w).Checkpoints.map Checkpoint.Height) ∧
    List.Chain' (fun a b => a < b) ((SimNetParams w).Checkpoints.map Checkpoint.Height) ∧
    List.Pairwise (fun a b => a < b) ((MainNetParams w).Checkpoints.map Checkpoint.Height) ∧
    ((MainNetParams w).Checkpoints.map Checkpoint.Height).Nodup ∧
    ((RegressionNetParams w).Checkpoints.map Checkpoint.Height).Nodup ∧
    ((TestNet3Params w).Checkpoints.map Checkpoint.Height).Nodup ∧
    ((SimNetParams w).Checkpoints.map Checkpoint.Height).Nodup := by
  rw [main_checkpoint_heights]
  refine ⟨rfl, rfl, by norm_num, ?_, ?_, ?_, by decide, by decide, ?_, ?_, ?_⟩ <;>
    simp [RegressionNetParams, TestNet3Params, SimNetParams]

/-- C14. The checkpoint sequence is empty for the regression, test-v3 and
simulation networks and non-empty for the main network. -/
theorem C14_checkpoints_only_on_main (w : WireNets) :
    (RegressionNetParams w).Checkpoints = [] ∧
    (TestNet3Params w).Checkpoints = [] ∧
    (SimNetParams w).Checkpoints = [] ∧
    (MainNetParams w).Checkpoints ≠ [] ∧
    (MainNetParams w).Checkpoints.length = 17 := by
  refine ⟨rfl, rfl, rfl, ?_, rfl⟩
  simp [MainNetParams]

/-- C17. The proof-of-work limits computed as `(1 << n) - 1` are
2^236 - 1, 2^255 - 1, 2^224 - 1 and 2^255 - 1, and they are the `PowLimit`
fields of the main, regression, test-v3 and simulation records. -/
theorem C17_pow_limits (w : WireNets) :
    mainPowLimit = 2 ^ 236 - 1 ∧
    regressionPowLimit = 2 ^ 255 - 1 ∧
    testNet3PowLimit = 2 ^ 224 - 1 ∧
    simNetPowLimit = 2 ^ 255 - 1 ∧
    (MainNetParams w).PowLimit = mainPowLimit ∧
    (RegressionNetParams w).PowLimit = regressionPowLimit ∧
    (TestNet3Params w).PowLimit = testNet3PowLimit ∧
    (SimNetParams w).PowLimit = simNetPowLimit ∧
    (MainNetParams w).PowLimit
      = 110427941548649020598956093796432407239217743554726184882600387580788735 ∧
    (RegressionNetParams w).PowLimit
      = 57896044618658097711785492504343953926634992332820282019728792003956564819967 ∧
    (TestNet3Params w).PowLimit
      = 26959946667150639794667015087019630673637144422540572481103610249215 ∧
    (SimNetParams w).PowLimit
      = 57896044618658097711785492504343953926634992332820282019728792003956564819967 := by
  refine ⟨?_, ?_, ?_, ?_, rfl, rfl, rfl, rfl, ?_, ?_, ?_, ?_⟩
  · simp [mainPowLimit, Lsh, bigOne]
  · simp [regressionPowLimit, Lsh, bigOne]
  · simp [testNet3PowLimit, Lsh, bigOne]
  · simp [simNetPowLimit, Lsh, bigOne]
  · show mainPowLimit = _
    norm_num [mainPowLimit, Lsh, bigOne]
  · show regressionPowLimit = _
    norm_num [regressionPowLimit, Lsh, bigOne]
  · show testNet3PowLimit = _
    norm_num [testNet3PowLimit, Lsh, bigOne]
  · show simNetPowLimit = _
    norm_num [simNetPowLimit, Lsh, bigOne]

/-- C19. The flag `ResetMinDifficulty` is false for the main network and
true for the regression, test-v3 and simulation networks. -/
theorem C19_reset_min_difficulty (w : WireNets) :
    (MainNetParams w).ResetMinDifficulty = false ∧
    (RegressionNetParams w).ResetMinDifficulty = true ∧
    (TestNet3Params w).ResetMinDifficulty = true ∧
    (SimNetParams w).ResetMinDifficulty = true :=
  ⟨rfl, rfl, rfl, rfl⟩

/-- C20. The genesis block of every built-in network has the all-zero
`PrevBlock` and exactly one transaction, and that transaction has exactly
one input, whose previous outpoint has the all-zero hash and the index
0xffffffff. -/
theorem C20_genesis_is_first_coinbase_block (w : WireNets) :
    (MainNetParams w).GenesisBlock.Header.PrevBlock = List.replicate 32 0 ∧
    (RegressionNetParams w).GenesisBlock.Header.PrevBlock = List.replicate 32 0 ∧
    (TestNet3Params w).GenesisBlock.Header.PrevBlock = List.replicate 32 0 ∧
    (SimNetParams w).GenesisBlock.Header.PrevBlock = List.replicate 32 0 ∧
    (MainNetParams w).GenesisBlock.Transactions.length = 1 ∧
    (RegressionNetParams w).GenesisBlock.Transactions.length = 1 ∧
    (TestNet3Params w).GenesisBlock.Transactions.length = 1 ∧
    (SimNetParams w).GenesisBlock.Transactions.length = 1 ∧
    (MainNetParams w).GenesisBlock.Transactions.map
        (fun tx => tx.TxIn.map TxIn.PreviousOutPoint)
      = [[⟨List.replicate 32 0, 0xffffffff⟩]] ∧
    (RegressionNetParams w).GenesisBlock.Transactions.map
        (fun tx => tx.TxIn.map TxIn.PreviousOutPoint)
      = [[⟨List.replicate 32 0, 0xffffffff⟩]] ∧
    (TestNet3Params w).GenesisBlock.Transactions.map
        (fun tx => tx.TxIn.map TxIn.PreviousOutPoint)
      = [[⟨List.replicate 32 0, 0xffffffff⟩]] ∧
    (SimNetParams w).GenesisBlock.Transactions.map
        (fun tx => tx.TxIn.map TxIn.PreviousOutPoint)
      = [[⟨List.replicate 32 0, 0xffffffff⟩]] :=
  ⟨rfl, rfl, rfl, rfl, rfl, rfl, rfl, rfl, rfl, rfl, rfl, rfl⟩

/-! ## The compact encoding -/

theorem byteLenAux_spec (fuel n : Nat) (h : n ≤ fuel) :
    (n = 0 → byteLenAux fuel n = 0) ∧
    (0 < n → 256 ^ (byteLenAux fuel n - 1) ≤ n ∧ n < 256 ^ byteLenAux fuel n) := by
  induction fuel generalizing n with
  | zero =>
    have h0 : n = 0 := Nat.le_zero.1 h
    subst h0
    simp [byteLenAux]
  | succ fuel ih =>
    by_cases hn : n = 0
    · subst hn
      simp [byteLenAux]
    · have hpos : 0 < n := Nat.pos_of_ne_zero hn
      have hdiv : n / 256 ≤ fuel := by omega
      obtain ⟨hz, hp⟩ := ih (n / 256) hdiv
      refine ⟨fun h0 => absurd h0 hn, fun _ => ?_⟩
      simp only [byteLenAux, hn, if_false, Nat.add_sub_cancel]
      by_cases hq : n / 256 = 0
      · rw [hz hq]
        have hlt : n < 256 := by omega
        simpa using ⟨hpos, hlt⟩
      · obtain ⟨hlo, hhi⟩ := hp (Nat.pos_of_ne_zero hq)
        have hk : 0 < byteLenAux fuel (n / 256) := by
          rcases Nat.eq_zero_or_pos (byteLenAux fuel (n / 256)) with h0 | h0
          · rw [h0] at hhi
            omega
          · exact h0
        constructor
        · have h1 : 256 ^ byteLenAux fuel (n / 256)
              = 256 ^ (byteLenAux fuel (n / 256) - 1) * 256 := by
            rw [← pow_succ]
            congr 1
            omega
          rw [h1]
          calc 256 ^ (byteLenAux fuel (n / 256) - 1) * 256 ≤ n / 256 * 256 :=
                Nat.mul_le_mul_right _ hlo
            _ ≤ n := Nat.div_mul_le_self n 256
        · rw [pow_succ]
          have h2 : n / 256 + 1 ≤ 256 ^ byteLenAux fuel (n / 256) := hhi
          have h3 : n < (n / 256 + 1) * 256 := by omega
          exact lt_of_lt_of_le h3 (Nat.mul_le_mul_right _ h2)

/-- The meaning of `byteLen`: a positive `n` has exactly `byteLen n` bytes. -/
theorem byteLen_spec (n : Nat) (h : 0 < n) :
    256 ^ (byteLen n - 1) ≤ n ∧ n < 256 ^ byteLen n :=
  (byteLenAux_spec n n (Nat.le_refl n)).2 h

set_option maxRecDepth 8000 in
/-- C18. For each built-in network `PowLimitBits` is the compact encoding of
`PowLimit`: encoding 2^236 - 1 gives 0x1e0fffff (main), 2^255 - 1 gives
0x207fffff (regtest and simnet), and 2^224 - 1, whose top three bytes would
set the sign bit, gives 0x1d00ffff (testnet3). -/
theorem C18_pow_limit_bits (w : WireNets) :
    BigToCompact (MainNetParams w).PowLimit = (MainNetParams w).PowLimitBits ∧
    BigToCompact (RegressionNetParams w).PowLimit = (RegressionNetParams w).PowLimitBits ∧
    BigToCompact (TestNet3Params w).PowLimit = (TestNet3Params w).PowLimitBits ∧
    BigToCompact (SimNetParams w).PowLimit = (SimNetParams w).PowLimitBits ∧
    (MainNetParams w).PowLimitBits = 0x1e0fffff ∧
    (RegressionNetParams w).PowLimitBits = 0x207fffff ∧
    (TestNet3Params w).PowLimitBits = 0x1d00ffff ∧
    (SimNetParams w).PowLimitBits = 0x207fffff := by
  refine ⟨?_, ?_, ?_, ?_, rfl, rfl, rfl, rfl⟩
  · show BigToCompact mainPowLimit = 0x1e0fffff
    decide
  · show BigToCompact regressionPowLimit = 0x207fffff
    decide
  · show BigToCompact testNet3PowLimit = 0x1d00ffff
    decide
  · show BigToCompact simNetPowLimit = 0x207fffff
    decide

/-! ## Genesis blocks on the wire -/

set_option maxRecDepth 100000 in
/-- C15. For each built-in network the wire serialization of its genesis
block (the 80-byte header, the transaction count and the coinbase
transaction) equals the expected byte sequence of the tests, byte for
byte. -/
theorem C15_genesis_block_bytes (w : WireNets) :
    (MainNetParams w).GenesisBlock.Serialize = genesisBlockBytes ∧
    (RegressionNetParams w).GenesisBlock.Serialize = regTestGenesisBlockBytes ∧
    (TestNet3Params w).GenesisBlock.Serialize = testNet3GenesisBlockBytes ∧
    (SimNetParams w).GenesisBlock.Serialize = simNetGenesisBlockBytes ∧
    (MainNetParams w).GenesisBlock.Header.Serialize.length = 80 ∧
    (RegressionNetParams w).GenesisBlock.Header.Serialize.length = 80 ∧
    (TestNet3Params w).GenesisBlock.Header.Serialize.length = 80 ∧
    (SimNetParams w).GenesisBlock.Header.Serialize.length = 80 := by
  refine ⟨?_, ?_, ?_, ?_, ?_, ?_, ?_, ?_⟩
  · show genesisBlock.Serialize = genesisBlockBytes
    decide
  · show regTestGenesisBlock.Serialize = regTestGenesisBlockBytes
    decide
  · show testNet3GenesisBlock.Serialize = testNet3GenesisBlockBytes
    decide
  · show simNetGenesisBlock.Serialize = simNetGenesisBlockBytes
    decide
  · show genesisBlock.Header.Serialize.length = 80
    decide
  · show regTestGenesisBlock.Header.Serialize.length = 80
    decide
  · show testNet3GenesisBlock.Header.Serialize.length = 80
    decide
  · show simNetGenesisBlock.Header.Serialize.length = 80
    decide

theorem sha256_abc :
    sha256 [0x61, 0x62, 0x63] =
      [0xba, 0x78, 0x16, 0xbf, 0x8f, 0x01, 0xcf, 0xea, 0x41, 0x41, 0x40, 0xde, 0x5d, 0xae,
       0x22, 0x23, 0xb0, 0x03, 0x61, 0xa3, 0x96, 0x17, 0x7a, 0x9c, 0xb4, 0x10, 0xff, 0x61,
       0xf2, 0x00, 0x15, 0xad] := by
  decide!

theorem sha256_empty :
    sha256 [] =
      [0xe3, 0xb0, 0xc4, 0x42, 0x98, 0xfc, 0x1c, 0x14, 0x9a, 0xfb, 0xf4, 0xc8, 0x99, 0x6f,
       0xb9, 0x24, 0x27, 0xae, 0x41, 0xe4, 0x64, 0x9b, 0x93, 0x4c, 0xa4, 0x95, 0x99, 0x1b,
       0x78, 0x52, 0xb8, 0x55] := by
  decide!

/-- C16. For each built-in network the block hash of its genesis block, the
double SHA-256 of the 80-byte serialized header, equals the stored
`GenesisHash` byte for byte. -/
theorem C16_genesis_block_hash (w : WireNets) :
    (MainNetParams w).GenesisBlock.BlockSha = (MainNetParams w).GenesisHash ∧
    (RegressionNetParams w).GenesisBlock.BlockSha = (RegressionNetParams w).GenesisHash ∧
    (TestNet3Params w).GenesisBlock.BlockSha = (TestNet3Params w).GenesisHash ∧
    (SimNetParams w).GenesisBlock.BlockSha = (SimNetParams w).GenesisHash ∧
    (MainNetParams w).GenesisHash = genesisHash ∧
    (RegressionNetParams w).GenesisHash = regTestGenesisHash ∧
    (TestNet3Params w).GenesisHash = testNet3GenesisHash ∧
    (SimNetParams w).GenesisHash = simNetGenesisHash := by
  refine ⟨?_, ?_, ?_, ?_, rfl, rfl, rfl, rfl⟩
  · show genesisBlock.BlockSha = genesisHash
    decide!
  · show regTestGenesisBlock.BlockSha = regTestGenesisHash
    decide!
  · show testNet3GenesisBlock.BlockSha = testNet3GenesisHash
    decide!
  · show simNetGenesisBlock.BlockSha = simNetGenesisHash
    decide!

/-! ## Merkle roots and thresholds -/

/-- The two merkle-root variables are the hashes, by the modelled double
SHA-256 of the modelled wire encoding, of the two coinbase transactions:
`genesisMerkleRoot` of `genesisCoinbaseTx` and `genesisMerkleRootBtc` of
`genesisCoinbaseTxBtc`. -/
theorem merkle_roots_hash_the_coinbase :
    DoubleSha256 genesisCoinbaseTx.Serialize = genesisMerkleRoot ∧
    DoubleSha256 genesisCoinbaseTxBtc.Serialize = genesisMerkleRootBtc := by
  constructor <;> decide!

/-- C21, as stated, fails: the merkle roots of the regression-test, test-v3
and simulation genesis blocks all differ from `genesisMerkleRoot`, the
`MerkleRoot` in the header of the main network's `genesisBlock`; their first
byte is 0x3b and that of `genesisMerkleRoot` is 0xff. -/
theorem C21_merkle_root_counterexample :
    genesisBlock.Header.MerkleRoot = genesisMerkleRoot ∧
    regTestGenesisMerkleRoot ≠ genesisMerkleRoot ∧
    testNet3GenesisMerkleRoot ≠ genesisMerkleRoot ∧
    simNetGenesisMerkleRoot ≠ genesisMerkleRoot ∧
    regTestGenesisMerkleRoot.head? = some 0x3b ∧
    genesisMerkleRoot.head? = some 0xff := by
  refine ⟨rfl, by decide, by decide, by decide, rfl, rfl⟩

/-- C21, amended. The genesis merkle roots of the regression-test, test-v3
and simulation networks are each equal to `genesisMerkleRootBtc` (and so to
one another), and they are the `MerkleRoot` in the headers of those
networks' genesis blocks. -/
theorem C21_merkle_roots_are_btc_root (w : WireNets) :
    regTestGenesisMerkleRoot = genesisMerkleRootBtc ∧
    testNet3GenesisMerkleRoot = genesisMerkleRootBtc ∧
    simNetGenesisMerkleRoot = genesisMerkleRootBtc ∧
    (RegressionNetParams w).GenesisBlock.Header.MerkleRoot = genesisMerkleRootBtc ∧
    (TestNet3Params w).GenesisBlock.Header.MerkleRoot = genesisMerkleRootBtc ∧
    (SimNetParams w).GenesisBlock.Header.MerkleRoot = genesisMerkleRootBtc ∧
    (MainNetParams w).GenesisBlock.Header.MerkleRoot = genesisMerkleRoot :=
  ⟨rfl, rfl, rfl, rfl, rfl, rfl, rfl⟩

/-- C22. For each built-in network both soft-fork thresholds ask for more
than half of the window and at most the whole window, with the documented
percentages: 950 and 750 of 1000 (95% and 75%) on main, 75 and 51 of 100
(75% and 51%) on regtest, testnet3 and simnet. -/
theorem C22_softfork_thresholds (w : WireNets) :
    ((MainNetParams w).BlockV1RejectNumToCheck / 2 < (MainNetParams w).BlockV1RejectNumRequired ∧
      (MainNetParams w).BlockV1RejectNumRequired ≤ (MainNetParams w).BlockV1RejectNumToCheck ∧
      (MainNetParams w).CoinbaseBlockHeightNumToCheck / 2
        < (MainNetParams w).CoinbaseBlockHeightNumRequired ∧
      (MainNetParams w).CoinbaseBlockHeightNumRequired
        ≤ (MainNetParams w).CoinbaseBlockHeightNumToCheck) ∧
    ((RegressionNetParams w).BlockV1RejectNumToCheck / 2
        < (RegressionNetParams w).BlockV1RejectNumRequired ∧
      (RegressionNetParams w).BlockV1RejectNumRequired
        ≤ (RegressionNetParams w).BlockV1RejectNumToCheck ∧
      (RegressionNetParams w).CoinbaseBlockHeightNumToCheck / 2
        < (RegressionNetParams w).CoinbaseBlockHeightNumRequired ∧
      (RegressionNetParams w).CoinbaseBlockHeightNumRequired
        ≤ (RegressionNetParams w).CoinbaseBlockHeightNumToCheck) ∧
    ((TestNet3Params w).BlockV1RejectNumToCheck / 2
        < (TestNet3Params w).BlockV1RejectNumRequired ∧
      (TestNet3Params w).BlockV1RejectNumRequired ≤ (TestNet3Params w).BlockV1RejectNumToCheck ∧
      (TestNet3Params w).CoinbaseBlockHeightNumToCheck / 2
        < (TestNet3Params w).CoinbaseBlockHeightNumRequired ∧
      (TestNet3Params w).CoinbaseBlockHeightNumRequired
        ≤ (TestNet3Params w).CoinbaseBlockHeightNumToCheck) ∧
    ((SimNetParams w).BlockV1RejectNumToCheck / 2 < (SimNetParams w).BlockV1RejectNumRequired ∧
      (SimNetParams w).BlockV1RejectNumRequired ≤ (SimNetParams w).BlockV1RejectNumToCheck ∧
      (SimNetParams w).CoinbaseBlockHeightNumToCheck / 2
        < (SimNetParams w).CoinbaseBlockHeightNumRequired ∧
      (SimNetParams w).CoinbaseBlockHeightNumRequired
        ≤ (SimNetParams w).CoinbaseBlockHeightNumToCheck) ∧
    ((MainNetParams w).BlockV1RejectNumRequired = 950 ∧
      (MainNetParams w).BlockV1RejectNumToCheck = 1000 ∧
      (MainNetParams w).CoinbaseBlockHeightNumRequired = 750 ∧
      (MainNetParams w).CoinbaseBlockHeightNumToCheck = 1000) ∧
    ((RegressionNetParams w).BlockV1RejectNumRequired = 75 ∧
      (RegressionNetParams w).BlockV1RejectNumToCheck = 100 ∧
      (RegressionNetParams w).CoinbaseBlockHeightNumRequired = 51 ∧
      (RegressionNetParams w).CoinbaseBlockHeightNumToCheck = 100) ∧
    ((TestNet3Params w).BlockV1RejectNumRequired = 75 ∧
      (TestNet3Params w).BlockV1RejectNumToCheck = 100 ∧
      (TestNet3Params w).CoinbaseBlockHeightNumRequired = 51 ∧
      (TestNet3Params w).CoinbaseBlockHeightNumToCheck = 100) ∧
    ((SimNetParams w).BlockV1RejectNumRequired = 75 ∧
      (SimNetParams w).BlockV1RejectNumToCheck = 100 ∧
      (SimNetParams w).CoinbaseBlockHeightNumRequired = 51 ∧
      (SimNetParams w).CoinbaseBlockHeightNumToCheck = 100) ∧
    (MainNetParams w).BlockV1RejectNumRequired * 100
      = 95 * (MainNetParams w).BlockV1RejectNumToCheck ∧
    (MainNetParams w).CoinbaseBlockHeightNumRequired * 100
      = 75 * (MainNetParams w).CoinbaseBlockHeightNumToCheck ∧
    (RegressionNetParams w).BlockV1RejectNumRequired * 100
      = 75 * (RegressionNetParams w).BlockV1RejectNumToCheck ∧
    (RegressionNetParams w).CoinbaseBlockHeightNumRequired * 100
      = 51 * (RegressionNetParams w).CoinbaseBlockHeightNumToCheck ∧
    (TestNet3Params w).BlockV1RejectNumRequired * 100
      = 75 * (TestNet3Params w).BlockV1RejectNumToCheck ∧
    (TestNet3Params w).CoinbaseBlockHeightNumRequired * 100
      = 51 * (TestNet3Params w).CoinbaseBlockHeightNumToCheck ∧
    (SimNetParams w).BlockV1RejectNumRequired * 100
      = 75 * (SimNetParams w).BlockV1RejectNumToCheck ∧
    (SimNetParams w).CoinbaseBlockHeightNumRequired * 100
      = 51 * (SimNetParams w).CoinbaseBlockHeightNumToCheck := by
  have a1 : (MainNetParams w).BlockV1RejectNumRequired = 950 := rfl
  have a2 : (MainNetParams w).BlockV1RejectNumToCheck = 1000 := rfl
  have a3 : (MainNetParams w).CoinbaseBlockHeightNumRequired = 750 := rfl
  have a4 : (MainNetParams w).CoinbaseBlockHeightNumToCheck = 1000 := rfl
  have b1 : (RegressionNetParams w).BlockV1RejectNumRequired = 75 := rfl
  have b2 : (RegressionNetParams w).BlockV1RejectNumToCheck = 100 := rfl
  have b3 : (RegressionNetParams w).CoinbaseBlockHeightNumRequired = 51 := rfl
  have b4 : (RegressionNetParams w).CoinbaseBlockHeightNumToCheck = 100 := rfl
  have c1 : (TestNet3Params w).BlockV1RejectNumRequired = 75 := rfl
  have c2 : (TestNet3Params w).BlockV1RejectNumToCheck = 100 := rfl
  have c3 : (TestNet3Params w).CoinbaseBlockHeightNumRequired = 51 := rfl
  have c4 : (TestNet3Params w).CoinbaseBlockHeightNumToCheck = 100 := rfl
  have d1 : (SimNetParams w).BlockV1RejectNumRequired = 75 := rfl
  have d2 : (SimNetParams w).BlockV1RejectNumToCheck = 100 := rfl
  have d3 : (SimNetParams w).CoinbaseBlockHeightNumRequired = 51 := rfl
  have d4 : (SimNetParams w).CoinbaseBlockHeightNumToCheck = 100 := rfl
  rw [a1, a2, a3, a4, b1, b2, b3, b4, c1, c2, c3, c4, d1, d2, d3, d4]
  decide

/-- C26. No built-in record sets the subsidy-halving interval: the field
`SubsidyHalvingInterval` has its zero value 0 in all four. -/
theorem C26_subsidy_halving_interval_unset (w : WireNets) :
    (MainNetParams w).SubsidyHalvingInterval = 0 ∧
    (RegressionNetParams w).SubsidyHalvingInterval = 0 ∧
    (TestNet3Params w).SubsidyHalvingInterval = 0 ∧
    (SimNetParams w).SubsidyHalvingInterval = 0 :=
  ⟨rfl, rfl, rfl, rfl⟩

/-! ## The frame of a successful registration -/

/-- C23. A successful `Register` changes the tables only at the params' own
keys: the registration status of every other network identifier, the result
of `IsPubKeyHashAddrID` and of `IsScriptHashAddrID` on every other byte, and
the result of the HD lookup on every id other than the 4 bytes of
`HDPrivateKeyID` are as before. -/
theorem C23_register_frame (r : Registry) (p : Params)
    (h : r.registeredNets.contains p.Net = false) :
    (Register r p).2 = none ∧
    (∀ n, n ≠ p.Net →
      (Register r p).1.registeredNets.contains n = r.registeredNets.contains n) ∧
    (∀ b, b ≠ p.PubKeyHashAddrID →
      IsPubKeyHashAddrID (Register r p).1 b = IsPubKeyHashAddrID r b) ∧
    (∀ b, b ≠ p.ScriptHashAddrID →
      IsScriptHashAddrID (Register r p).1 b = IsScriptHashAddrID r b) ∧
    (∀ id, id ≠ p.HDPrivateKeyID.slice →
      HDPrivateKeyToPublicKeyID (Register r p).1 id = HDPrivateKeyToPublicKeyID r id) := by
  rw [Register_new h]
  refine ⟨rfl, ?_, ?_, ?_, ?_⟩
  · intro n hn
    simp only [GoMap.contains, GoMap.get_set_ne _ _ (Ne.symm hn)]
  · intro b hb
    simp only [IsPubKeyHashAddrID, GoMap.contains, GoMap.get_set_ne _ _ (Ne.symm hb)]
  · intro b hb
    simp only [IsScriptHashAddrID, GoMap.contains, GoMap.get_set_ne _ _ (Ne.symm hb)]
  · intro id hid
    by_cases hlen : id.length = 4
    · obtain ⟨b0, b1, b2, b3, rfl⟩ := length_four hlen
      have hk : p.HDPrivateKeyID ≠ ⟨b0, b1, b2, b3⟩ := by
        intro hp
        apply hid
        rw [hp]
        rfl
      rw [hd_four_bytes, hd_four_bytes]
      simp only [GoMap.get_set_ne _ _ hk]
    · rw [hd_wrong_length _ hlen, hd_wrong_length _ hlen]

/-- Witness for C23: registering `customParams` in the initial tables leaves
the main network's identifier, bytes and HD magic as they were. -/
theorem C23_register_frame_witness :
    (initialRegistry sampleNets).registeredNets.contains customParams.Net = false ∧
    (Register (initialRegistry sampleNets) customParams).1.registeredNets.contains
        sampleNets.TestNet3
      = (initialRegistry sampleNets).registeredNets.contains sampleNets.TestNet3 ∧
    IsPubKeyHashAddrID (Register (initialRegistry sampleNets) customParams).1 0x12
      = IsPubKeyHashAddrID (initialRegistry sampleNets) 0x12 ∧
    IsScriptHashAddrID (Register (initialRegistry sampleNets) customParams).1 0x05
      = IsScriptHashAddrID (initialRegistry sampleNets) 0x05 ∧
    HDPrivateKeyToPublicKeyID (Register (initialRegistry sampleNets) customParams).1
        [0x04, 0x88, 0xad, 0xe4]
      = HDPrivateKeyToPublicKeyID (initialRegistry sampleNets) [0x04, 0x88, 0xad, 0xe4] :=
  ⟨by decide,
   (C23_register_frame (initialRegistry sampleNets) customParams (by decide)).2.1
      sampleNets.TestNet3 (by decide),
   (C23_register_frame (initialRegistry sampleNets) customParams (by decide)).2.2.1
      0x12 (by decide),
   (C23_register_frame (initialRegistry sampleNets) customParams (by decide)).2.2.2.1
      0x05 (by decide),
   (C23_register_frame (initialRegistry sampleNets) customParams (by decide)).2.2.2.2
      [0x04, 0x88, 0xad, 0xe4] (by decide)⟩

/-- C24. In the initial tables no byte is both a pay-to-pubkey-hash and a
pay-to-script-hash identifier; the two lookups can both be true only after
a registration, as on byte 0x05 once `overlapParams` is registered. -/
theorem C24_initial_ids_disjoint (w : WireNets) (b : Byte) :
    ¬ (IsPubKeyHashAddrID (initialRegistry w) b = true ∧
        IsScriptHashAddrID (initialRegistry w) b = true) ∧
    (IsPubKeyHashAddrID (initialRegistry w) b && IsScriptHashAddrID (initialRegistry w) b)
      = false ∧
    (Register (initialRegistry sampleNets) overlapParams).2 = none ∧
    IsPubKeyHashAddrID (Register (initialRegistry sampleNets) overlapParams).1 0x05 = true ∧
    IsScriptHashAddrID (Register (initialRegistry sampleNets) overlapParams).1 0x05 = true := by
  have hdis : ¬ (IsPubKeyHashAddrID (initialRegistry w) b = true ∧
      IsScriptHashAddrID (initialRegistry w) b = true) := by
    rintro ⟨h1, h2⟩
    rw [initial_pubKeyHash] at h1
    rw [initial_scriptHash] at h2
    simp only [Bool.or_eq_true, decide_eq_true_eq] at h1 h2
    rcases h1 with rfl | rfl | rfl <;> revert h2 <;> decide
  refine ⟨hdis, ?_, by decide, by decide, by decide⟩
  cases h1 : IsPubKeyHashAddrID (initialRegistry w) b
  · rfl
  · cases h2 : IsScriptHashAddrID (initialRegistry w) b
    · rfl
    · exact absurd ⟨h1, h2⟩ hdis

/-! ## Genesis targets -/

set_option maxRecDepth 8000 in
/-- The two modelled encodings agree on the four genesis `Bits` values:
encoding the decoded target gives the compact value back. -/
theorem compact_roundtrip_genesis_bits :
    BigToCompact (CompactToBig 0x1e0ffff0) = 0x1e0ffff0 ∧
    BigToCompact (CompactToBig 0x207fffff) = 0x207fffff ∧
    BigToCompact (CompactToBig 0x1d00ffff) = 0x1d00ffff := by
  refine ⟨?_, ?_, ?_⟩ <;> decide

set_option maxRecDepth 8000 in
/-- C25. For each built-in network the target encoded by the `Bits` of the
genesis block header, `mantissa * 256 ^ (exponent - 3)`, is positive and at
most the network's `PowLimit`. The header `Bits` equal `PowLimitBits` for
regtest, testnet3 and simnet; for main the header `Bits` 0x1e0ffff0 differ
from `PowLimitBits` 0x1e0fffff. -/
theorem C25_genesis_bits_within_pow_limit (w : WireNets) :
    ((MainNetParams w).GenesisBlock.Header.Bits = 0x1e0ffff0 ∧
      (RegressionNetParams w).GenesisBlock.Header.Bits = 0x207fffff ∧
      (TestNet3Params w).GenesisBlock.Header.Bits = 0x1d00ffff ∧
      (SimNetParams w).GenesisBlock.Header.Bits = 0x207fffff) ∧
    (CompactToBig (MainNetParams w).GenesisBlock.Header.Bits = 0x0ffff0 * 256 ^ (0x1e - 3) ∧
      CompactToBig (RegressionNetParams w).GenesisBlock.Header.Bits
        = 0x7fffff * 256 ^ (0x20 - 3) ∧
      CompactToBig (TestNet3Params w).GenesisBlock.Header.Bits = 0x00ffff * 256 ^ (0x1d - 3) ∧
      CompactToBig (SimNetParams w).GenesisBlock.Header.Bits = 0x7fffff * 256 ^ (0x20 - 3)) ∧
    (0 < CompactToBig (MainNetParams w).GenesisBlock.Header.Bits ∧
      CompactToBig (MainNetParams w).GenesisBlock.Header.Bits ≤ (MainNetParams w).PowLimit) ∧
    (0 < CompactToBig (RegressionNetParams w).GenesisBlock.Header.Bits ∧
      CompactToBig (RegressionNetParams w).GenesisBlock.Header.Bits
        ≤ (RegressionNetParams w).PowLimit) ∧
    (0 < CompactToBig (TestNet3Params w).GenesisBlock.Header.Bits ∧
      CompactToBig (TestNet3Params w).GenesisBlock.Header.Bits
        ≤ (TestNet3Params w).PowLimit) ∧
    (0 < CompactToBig (SimNetParams w).GenesisBlock.Header.Bits ∧
      CompactToBig (SimNetParams w).GenesisBlock.Header.Bits ≤ (SimNetParams w).PowLimit) ∧
    (RegressionNetParams w).GenesisBlock.Header.Bits = (RegressionNetParams w).PowLimitBits ∧
    (TestNet3Params w).GenesisBlock.Header.Bits = (TestNet3Params w).PowLimitBits ∧
    (SimNetParams w).GenesisBlock.Header.Bits = (SimNetParams w).PowLimitBits ∧
    (MainNetParams w).GenesisBlock.Header.Bits ≠ (MainNetParams w).PowLimitBits ∧
    (MainNetParams w).PowLimitBits = 0x1e0fffff := by
  have a1 : (MainNetParams w).GenesisBlock.Header.Bits = 0x1e0ffff0 := rfl
  have a2 : (RegressionNetParams w).GenesisBlock.Header.Bits = 0x207fffff := rfl
  have a3 : (TestNet3Params w).GenesisBlock.Header.Bits = 0x1d00ffff := rfl
  have a4 : (SimNetParams w).GenesisBlock.Header.Bits = 0x207fffff := rfl
  have b1 : (MainNetParams w).PowLimit = mainPowLimit := rfl
  have b2 : (RegressionNetParams w).PowLimit = regressionPowLimit := rfl
  have b3 : (TestNet3Params w).PowLimit = testNet3PowLimit := rfl
  have b4 : (SimNetParams w).PowLimit = simNetPowLimit := rfl
  have c1 : (MainNetParams w).PowLimitBits = 0x1e0fffff := rfl
  have c2 : (RegressionNetParams w).PowLimitBits = 0x207fffff := rfl
  have c3 : (TestNet3Params w).PowLimitBits = 0x1d00ffff := rfl
  have c4 : (SimNetParams w).PowLimitBits = 0x207fffff := rfl
  rw [a1, a2, a3, a4, b1, b2, b3, b4, c1, c2, c3, c4]
  refine ⟨by decide, ⟨by decide, by decide, by decide, by decide⟩, ⟨by decide, by decide⟩,
    ⟨by decide, by decide⟩, ⟨by decide, by decide⟩, ⟨by decide, by decide⟩,
    rfl, rfl, rfl, by decide, rfl⟩

end Rddnet
